import Mathlib

/-!
Upgrade precheck gate of `tiup cluster upgrade`.

A shallow embedding of `components/cluster/command/upgrade.go` and of the
`components/cluster/precheck` package, followed by theorems about the
upgrade-decision state machine, the confirmation prompt, the risk normalizer,
the text report and the swappable streams.

Conventions of the embedding

* A Go `error` is a `GoError` (its message); a nil-able error is `Option GoError`.
* A function with effects returns its Go result paired with the list of `Event`s
  it performed, in program order.
* External collaborators (version formatting, output-format parsing, report
  rendering to markdown or HTML, the metadata store, the rule engine, the file
  system and the upgrade action) are fields of `Env`.
* Go strings are modelled by `String`, that is by sequences of Unicode scalar
  values (valid UTF-8).
-/

namespace Tiup

/-! ## Errors -/

/-- A Go error value, identified by its message. -/
structure GoError where
  msg : String
deriving DecidableEq, Repr

/-- The error built by `fmt.Errorf(text + ": %w", err)`. -/
def GoError.wrap (text : String) (err : GoError) : GoError :=
  ⟨text ++ ": " ++ err.msg⟩

/-- The sentinel `io.EOF`. -/
def ioEOF : GoError := ⟨"EOF"⟩

/-! ## Go string helpers (`strings`, `unicode`) -/

/-- The predicate `unicode.IsSpace`: the Unicode White_Space property. -/
def isSpace (c : Char) : Bool :=
  let n := c.toNat
  (0x09 ≤ n && n ≤ 0x0D) || n == 0x20 || n == 0x85 || n == 0xA0 || n == 0x1680 ||
  (0x2000 ≤ n && n ≤ 0x200A) || n == 0x2028 || n == 0x2029 || n == 0x202F ||
  n == 0x205F || n == 0x3000

/-- The rune map `unicode.ToLower`, exact on every rune whose lower case is an
ASCII character (the ASCII capitals, U+0130 and the Kelvin sign U+212A). Go folds
the remaining capital letters to other non-ASCII runes; they are left unchanged
here. `ToLower` is applied to the answer of the confirmation prompt only, which
is then compared with "y" and "yes", and this comparison does not observe the
difference. -/
def toLowerRune (c : Char) : Char :=
  let n := c.toNat
  if 65 ≤ n ∧ n ≤ 90 then Char.ofNat (n + 32)
  else if n = 0x130 then Char.ofNat 105
  else if n = 0x212A then Char.ofNat 107
  else c

/-- The rune map `unicode.ToUpper`, exact on the ASCII characters and on every rune
whose upper case is an ASCII character (U+0131 and U+017F). Go maps every other
cased rune to its upper case too; such a rune is left unchanged here, so the
header modelled for a level that holds one, an accented small letter for
instance, differs from the header Go prints. The levels `mapSeverity` assigns
are ASCII. -/
def toUpperRune (c : Char) : Char :=
  let n := c.toNat
  if 97 ≤ n ∧ n ≤ 122 then Char.ofNat (n - 32)
  else if n = 0x131 then Char.ofNat 73
  else if n = 0x17F then Char.ofNat 83
  else c

/-- Go `strings.ToLower`. -/
def ToLower (s : String) : String := ⟨s.data.map toLowerRune⟩

/-- Go `strings.ToUpper`. -/
def ToUpper (s : String) : String := ⟨s.data.map toUpperRune⟩

/-- Go `strings.TrimLeftFunc(s, unicode.IsSpace)` on the runes of a string. -/
def trimLeft (cs : List Char) : List Char := cs.dropWhile isSpace

/-- Go `strings.TrimRightFunc(s, unicode.IsSpace)` on the runes of a string. -/
def trimRight (cs : List Char) : List Char := (cs.reverse.dropWhile isSpace).reverse

/-- Go `strings.TrimSpace`: leading, then trailing white space is removed. -/
def TrimSpace (s : String) : String := ⟨trimRight (trimLeft s.data)⟩

/-- Go `strings.Join`. -/
def Join (elems : List String) (sep : String) : String :=
  match elems with
  | [] => ""
  | [e] => e
  | e :: rest => e ++ sep ++ Join rest sep

/-! ## Channels, events and the package-level streams of `precheck` -/

/-- Identity of an output channel. -/
inductive OutChan where
  /-- The process standard output, `os.Stdout`. -/
  | osStdout
  /-- Any other writer, such as a buffer substituted by a caller. -/
  | writer (id : Nat)
deriving DecidableEq, Repr

/-- An `io.Writer`: its identity and the error its writes return (`none`: every
write succeeds). -/
structure Writer where
  chan : OutChan
  fail : Option GoError
deriving DecidableEq, Repr

/-- An `io.Reader`: the content it delivers, after which reads return `fail`
(`io.EOF` at a regular end of input). -/
structure Reader where
  data : String
  fail : GoError
deriving DecidableEq, Repr

/-- The package-level variables `stdOut` and `stdIn` of `precheck`. -/
structure Streams where
  stdOut : Writer
  stdIn : Reader
deriving DecidableEq, Repr

/-- Levels of the log printer. -/
inductive LogLevel where
  | info
  | warn
  | error
deriving DecidableEq, Repr

/-- Keys of the component version override map (the `spec.Component...` constants),
in the order of the map literal in `RunE`. -/
inductive Component where
  | ComponentDashboard
  | ComponentAlertmanager
  | ComponentTiDB
  | ComponentTiKV
  | ComponentPD
  | ComponentTSO
  | ComponentScheduling
  | ComponentTiFlash
  | ComponentTiKVCDC
  | ComponentCDC
  | ComponentTiProxy
  | ComponentBlackboxExporter
  | ComponentNodeExporter
deriving DecidableEq, Repr

/-- The arguments of one call of `clusterUpgradeFunc`. -/
structure UpgradeCall where
  clusterName : String
  version : String
  compVers : List (Component × String)
  skip : Bool
  offline : Bool
  ignoreVersion : Bool
  restartTimeout : Int
deriving DecidableEq, Repr

/-- Effects and collaborator calls performed by the program. -/
inductive Event where
  /-- A line sent to the log printer. -/
  | log (level : LogLevel) (msg : String)
  /-- A call of `cmd.Help()`. -/
  | help
  /-- A call of `clusterMetadataFunc`. -/
  | metadataLookup (clusterName : String)
  /-- A call of `precheck.RunPrecheckForUpgrade`. -/
  | assessment (sourceVersion targetVersion : String)
  /-- Text successfully written to an output channel. -/
  | write (chan : OutChan) (text : String)
  /-- A call of `os.WriteFile`. -/
  | writeFile (path payload : String) (perm : Nat)
  /-- A call of `precheck.AskForUserConfirmation`. -/
  | confirmationPrompt
  /-- A `ReadString` on the active input. -/
  | readInput
  /-- A call of `clusterUpgradeFunc`. -/
  | upgrade (call : UpgradeCall)
deriving DecidableEq, Repr

/-- Go `fmt.Fprint*` of an already formatted text: the error returned and the
effect on the channel. -/
def fprint (w : Writer) (text : String) : Option GoError × List Event :=
  match w.fail with
  | none => (none, [Event.write w.chan text])
  | some err => (some err, [])

/-! ## `precheck/param_guard.go`: the confirmation prompt -/

/-- The scan of `bufio.Reader.ReadString`: the text up to and including the first
`delim`, when there is one. -/
def scanLine (delim : Char) : List Char → Option (List Char)
  | [] => none
  | c :: cs => if c = delim then some [c] else (scanLine delim cs).map (c :: ·)

/-- Go `bufio.NewReader(r).ReadString(delim)`: the line with its delimiter, or all
the content read together with the reader's error when the input ends first. -/
def ReadString (r : Reader) (delim : Char) : String × Option GoError :=
  match scanLine delim r.data.data with
  | some line => (⟨line⟩, none)
  | none => (r.data, some r.fail)

/-- The function `AskForUserConfirmation` of `param_guard.go`. -/
def AskForUserConfirmation (io : Streams) : (Bool × Option GoError) × List Event :=
  let (werr, t1) := fprint io.stdOut "Do you want to continue with the upgrade? [y/N]: "
  match werr with
  | some err => ((false, some err), Event.confirmationPrompt :: t1)
  | none =>
    let (text, err) := ReadString io.stdIn (Char.ofNat 10)
    match err with
    | some err => ((false, some err), Event.confirmationPrompt :: t1 ++ [Event.readInput])
    | none =>
      let text := TrimSpace (ToLower text)
      ((text == "y" || text == "yes", none), Event.confirmationPrompt :: t1 ++ [Event.readInput])

/-- The function `OverrideIO`: the package streams after the call, and the returned
restore function as a map on the package streams. A nil argument is `none`. -/
def OverrideIO (s : Streams) (out : Option Writer) (inp : Option Reader) :
    Streams × (Streams → Streams) :=
  let prevOut := s.stdOut
  let prevIn := s.stdIn
  let s := match out with
    | some w => { s with stdOut := w }
    | none => s
  let s := match inp with
    | some r => { s with stdIn := r }
    | none => s
  (s, fun _ => { stdOut := prevOut, stdIn := prevIn })

/-! ## `precheck/risk_model.go`: the risk taxonomy and the normalizer -/

/-- The Go type `RiskLevel`, a string type. -/
abbrev RiskLevel := String

/-- The constant `RiskHigh`. -/
def RiskHigh : RiskLevel := "HIGH RISK"

/-- The constant `RiskMedium`. -/
def RiskMedium : RiskLevel := "MEDIUM RISK"

/-- The constant `RiskLow`. -/
def RiskLow : RiskLevel := "LOW RISK"

/-- One detected risk. -/
structure RiskItem where
  Level : RiskLevel := ""
  Category : String := ""
  Component : String := ""
  Parameter : String := ""
  Scope : String := ""
  Current : String := ""
  NewDefault : String := ""
  Impact : String := ""
  Suggestion : String := ""
  Reason : String := ""
  Comments : String := ""
deriving DecidableEq, Repr

/-- All risks found by one precheck. -/
structure RiskReport where
  SourceVersion : String := ""
  TargetVersion : String := ""
  High : List RiskItem := []
  Medium : List RiskItem := []
  Low : List RiskItem := []
deriving DecidableEq, Repr

/-- Counters by severity. -/
structure SummaryInfo where
  High : Nat
  Medium : Nat
  Low : Nat
  Total : Nat
deriving DecidableEq, Repr

/-- The method `(*RiskReport).Summary`. -/
def RiskReport.Summary (r : RiskReport) : SummaryInfo :=
  let s : SummaryInfo := { High := r.High.length, Medium := r.Medium.length, Low := r.Low.length, Total := 0 }
  { s with Total := s.High + s.Medium + s.Low }

/-- The engine input. -/
structure Input where
  SourceVersion : String
  TargetVersion : String
deriving DecidableEq, Repr

/-- Modelled from the spec: the severity type of the rule engine library, whose
declaration is not part of the sources: Blocker, Error, Warning, Info, or any
unrecognized value. -/
inductive Severity where
  | SeverityBlocker
  | SeverityError
  | SeverityWarning
  | SeverityInfo
  | unrecognized (raw : String)
deriving DecidableEq, Repr

/-- A dynamically typed value of the metadata bag, by the case of the type switch
of `stringFromMeta` it falls in. -/
inductive MetaValue where
  /-- The nil interface value. -/
  | nil
  /-- A Go string. -/
  | str (v : String)
  /-- A value implementing `fmt.Stringer` whose `String()` returns, with the text
  returned. A Stringer whose `String()` panics is a `BagValue.panickingStringer`. -/
  | stringer (text : String)
  /-- A byte slice, with its conversion to a string. -/
  | bytes (v : String)
  /-- Any other value, with its `fmt.Sprint` rendering. -/
  | other (sprint : String)
deriving DecidableEq, Repr

/-- The field `Metadata any` of a raw finding. -/
inductive Metadata where
  /-- No metadata. -/
  | nil
  /-- A `map[string]any`. -/
  | stringMap (entries : List (String × MetaValue))
  /-- A value of any other dynamic type. -/
  | other
deriving DecidableEq, Repr

/-- A raw finding of the rule engine (`prechecklib.ReportItem`). -/
structure ReportItem where
  Rule : String
  Severity : Severity
  Message : String
  Suggestions : List String
  Details : List String
  Metadata : Metadata
deriving DecidableEq, Repr

/-- The raw report of the rule engine (`prechecklib.Report`). -/
structure Report where
  Items : List ReportItem
deriving DecidableEq, Repr

/-- The assessment input of the rule engine (`prechecklib.Snapshot`). -/
structure Snapshot where
  SourceVersion : String
  TargetVersion : String
deriving DecidableEq, Repr

/-- The function `mapSeverity`. -/
def mapSeverity (severity : Severity) : RiskLevel :=
  match severity with
  | .SeverityBlocker => RiskHigh
  | .SeverityError => RiskHigh
  | .SeverityWarning => RiskMedium
  | _ => RiskLow

/-- The function `mapRuleCategory`. -/
def mapRuleCategory (rule : String) : String :=
  if rule = "core.forced-global-sysvars" then "Forced Upgrade Logic"
  else if rule = "core.target-version-order" then "Upgrade Path Validation"
  else TrimSpace rule

/-- The function `inferComponent`. -/
def inferComponent (rule : String) : String :=
  if rule = "core.forced-global-sysvars" then "TiDB" else ""

/-- The function `stringFromMeta`. -/
def stringFromMeta (entries : List (String × MetaValue)) (key : String) : String :=
  match entries.lookup key with
  | none => ""
  | some .nil => ""
  | some (.str v) => v
  | some (.stringer text) => text
  | some (.bytes v) => v
  | some (.other sprint) => sprint

/-- The function `trimString`. -/
def trimString (s : String) : String := TrimSpace s

/-- The function `convertReportItem`. -/
def convertReportItem (item : ReportItem) : RiskItem :=
  let severity := mapSeverity item.Severity
  let risk : RiskItem :=
    { Level := severity, Category := mapRuleCategory item.Rule, Impact := TrimSpace item.Message }
  let risk := if item.Suggestions.length > 0 then
    { risk with Suggestion := Join item.Suggestions "; " } else risk
  let risk := if item.Details.length > 0 then
    { risk with Comments := Join item.Details "; " } else risk
  let risk := match item.Metadata with
    | .stringMap entries =>
      let risk := { risk with Parameter := trimString (stringFromMeta entries "target") }
      let risk := { risk with NewDefault := trimString (stringFromMeta entries "default_value") }
      let risk := { risk with Scope := trimString (stringFromMeta entries "scope") }
      let reason := trimString (stringFromMeta entries "reason")
      let risk := if reason ≠ "" then { risk with Reason := reason } else risk
      let risk := if risk.Reason = "" then
        { risk with Reason := trimString (stringFromMeta entries "summary") } else risk
      let risk := if risk.Comments = "" then
        { risk with Comments := trimString (stringFromMeta entries "details") } else risk
      let component := trimString (stringFromMeta entries "component")
      if component ≠ "" then { risk with Component := component } else risk
    | _ => risk
  let risk := if risk.Component = "" then
    { risk with Component := inferComponent item.Rule } else risk
  if risk.Scope = "" ∧ item.Rule = "core.forced-global-sysvars" then
    { risk with Scope := "Global" } else risk

/-- One iteration of the loop of `convertReport`: the item is appended to the
sequence selected by the switch on its level. -/
def appendRisk (result : RiskReport) (risk : RiskItem) : RiskReport :=
  if risk.Level = RiskHigh then { result with High := result.High ++ [risk] }
  else if risk.Level = RiskMedium then { result with Medium := result.Medium ++ [risk] }
  else { result with Low := result.Low ++ [risk] }

/-- The function `convertReport`. -/
def convertReport (snapshot : Snapshot) (report : Report) : RiskReport :=
  let result : RiskReport :=
    { SourceVersion := snapshot.SourceVersion, TargetVersion := snapshot.TargetVersion }
  report.Items.foldl (fun acc item => appendRisk acc (convertReportItem item)) result

/-! ## The normalizer on a bag that may hold a panicking Stringer

`MetaValue` holds the values whose read by `stringFromMeta` returns. The type
switch of `stringFromMeta` calls `v.String()` on every value implementing
`fmt.Stringer`, and that call panics on a typed-nil pointer whose method reads
its receiver: the interface value is not nil, so the guard `value == nil` lets
it through. The definitions below follow the same source lines with that panic
made explicit as `none`. -/

/-- A value of the metadata bag as the Go runtime holds it: a value that
`stringFromMeta` renders, or a value implementing `fmt.Stringer` whose
`String()` panics. -/
inductive BagValue where
  /-- A value whose read returns. -/
  | renders (v : MetaValue)
  /-- A Stringer whose `String()` panics, such as a typed-nil pointer. -/
  | panickingStringer
deriving DecidableEq, Repr

/-- The field `Metadata any` of a raw finding, with the values as the Go runtime
holds them. -/
inductive BagMetadata where
  /-- No metadata. -/
  | nil
  /-- A `map[string]any`. -/
  | stringMap (entries : List (String × BagValue))
  /-- A value of any other dynamic type. -/
  | other
deriving DecidableEq, Repr

/-- A raw finding of the rule engine whose metadata may hold panicking Stringers. -/
structure RawFinding where
  Rule : String
  Severity : Severity
  Message : String
  Suggestions : List String
  Details : List String
  Metadata : BagMetadata
deriving DecidableEq, Repr

/-- The function `stringFromMeta` with its panic: `none` is the panic of
`v.String()` in the `fmt.Stringer` case. -/
def stringFromMetaOrPanic (entries : List (String × BagValue)) (key : String) : Option String :=
  match entries.lookup key with
  | none => some ""
  | some (.renders .nil) => some ""
  | some (.renders (.str v)) => some v
  | some (.renders (.stringer text)) => some text
  | some .panickingStringer => none
  | some (.renders (.bytes v)) => some v
  | some (.renders (.other sprint)) => some sprint

/-- The function `convertReportItem` with the panics of `stringFromMeta`: the
metadata keys are read in the order of the source, "summary" only when the
reason is still empty and "details" only when the comments are still empty, and
the first read that panics aborts the conversion (`none`). -/
def convertReportItemOrPanic (item : RawFinding) : Option RiskItem :=
  let severity := mapSeverity item.Severity
  let risk : RiskItem :=
    { Level := severity, Category := mapRuleCategory item.Rule, Impact := TrimSpace item.Message }
  let risk := if item.Suggestions.length > 0 then
    { risk with Suggestion := Join item.Suggestions "; " } else risk
  let risk := if item.Details.length > 0 then
    { risk with Comments := Join item.Details "; " } else risk
  let afterMetadata : Option RiskItem :=
    match item.Metadata with
    | .stringMap entries => do
      let target ← stringFromMetaOrPanic entries "target"
      let risk := { risk with Parameter := trimString target }
      let defaultValue ← stringFromMetaOrPanic entries "default_value"
      let risk := { risk with NewDefault := trimString defaultValue }
      let scope ← stringFromMetaOrPanic entries "scope"
      let risk := { risk with Scope := trimString scope }
      let reasonValue ← stringFromMetaOrPanic entries "reason"
      let reason := trimString reasonValue
      let risk := if reason ≠ "" then { risk with Reason := reason } else risk
      let risk ← if risk.Reason = "" then
          (stringFromMetaOrPanic entries "summary").map
            (fun summary => { risk with Reason := trimString summary })
        else some risk
      let risk ← if risk.Comments = "" then
          (stringFromMetaOrPanic entries "details").map
            (fun details => { risk with Comments := trimString details })
        else some risk
      let componentValue ← stringFromMetaOrPanic entries "component"
      let component := trimString componentValue
      some (if component ≠ "" then { risk with Component := component } else risk)
    | _ => some risk
  afterMetadata.map (fun risk =>
    let risk := if risk.Component = "" then
      { risk with Component := inferComponent item.Rule } else risk
    if risk.Scope = "" ∧ item.Rule = "core.forced-global-sysvars" then
      { risk with Scope := "Global" } else risk)

/-- The bag of a metadata value all of whose entries render. -/
def Metadata.toBag : Metadata → BagMetadata
  | .nil => BagMetadata.nil
  | .stringMap entries =>
    BagMetadata.stringMap (entries.map (fun entry => (entry.1, BagValue.renders entry.2)))
  | .other => BagMetadata.other

/-- A finding all of whose metadata values render, as a raw finding. -/
def ReportItem.toRaw (item : ReportItem) : RawFinding :=
  { Rule := item.Rule, Severity := item.Severity, Message := item.Message,
    Suggestions := item.Suggestions, Details := item.Details, Metadata := item.Metadata.toBag }

/-! ## `precheck/param_guard.go`: the console renderer -/

/-- The function `nullIfEmpty`. -/
def nullIfEmpty (s : String) : String :=
  if s = "" then "(unknown)" else s

/-- Go `fmt.Fprintln(w, text)` with its result discarded. -/
def fprintln (w : Writer) (text : String) : List Event :=
  (fprint w (text ++ "\n")).2

/-- Go `fmt.Fprintf` of an already formatted text, with its result discarded. -/
def fprintf (w : Writer) (text : String) : List Event :=
  (fprint w text).2

/-- The function `printRiskItem`. -/
def printRiskItem (w : Writer) (it : RiskItem) : List Event :=
  let tag := ToUpper it.Level
  (if it.Category ≠ "" then fprintf w ("[" ++ tag ++ "] (" ++ it.Category ++ ")\n")
   else fprintf w ("[" ++ tag ++ "]\n")) ++
  (if it.Component ≠ "" then fprintf w ("  - Component: " ++ it.Component ++ "\n") else []) ++
  (if it.Parameter ≠ "" then fprintf w ("  - Parameter: " ++ it.Parameter ++ "\n") else []) ++
  (if it.Scope ≠ "" then fprintf w ("  - Scope: " ++ it.Scope ++ "\n") else []) ++
  (if it.Current ≠ "" then fprintf w ("  - Current: " ++ it.Current ++ "\n") else []) ++
  (if it.NewDefault ≠ "" then fprintf w ("  - New Default: " ++ it.NewDefault ++ "\n") else []) ++
  (if it.Impact ≠ "" then fprintf w ("  - Impact: " ++ it.Impact ++ "\n") else []) ++
  (if it.Suggestion ≠ "" then fprintf w ("  - Suggestion: " ++ it.Suggestion ++ "\n") else []) ++
  (if it.Comments ≠ "" then fprintf w ("  - R&D Comments: " ++ it.Comments ++ "\n") else []) ++
  (if it.Reason ≠ "" then fprintf w ("  - Reason: " ++ it.Reason ++ "\n") else []) ++
  fprintln w ""

/-- The separator line of the text report. -/
def separatorLine : String :=
  "-------------------------------------------------------------------"

/-- One severity section of `renderTextReport`: nothing for an empty sequence. -/
def renderSection (w : Writer) (items : List RiskItem) : List Event :=
  if items.length > 0 then
    fprintln w separatorLine ++ items.flatMap (printRiskItem w)
  else []

/-- The function `renderTextReport`. -/
def renderTextReport (w : Writer) (r : RiskReport) : List Event :=
  let summary := r.Summary
  fprintln w "Running parameter precheck..." ++
  fprintf w ("  Source Version: " ++ nullIfEmpty r.SourceVersion ++ "\n") ++
  fprintf w ("  Target Version: " ++ nullIfEmpty r.TargetVersion ++ "\n\n") ++
  fprintln w "[PRECHECK REPORT - SUMMARY]" ++
  fprintf w ("Found " ++ toString summary.Total ++ " potential risks:\n") ++
  fprintf w ("  - [HIGH RISK]: " ++ toString summary.High ++ "\n") ++
  fprintf w ("  - [MEDIUM RISK]: " ++ toString summary.Medium ++ "\n\n") ++
  renderSection w r.High ++
  renderSection w r.Medium ++
  renderSection w r.Low ++
  (if summary.Total = 0 then fprintln w "No parameter risks detected." else []) ++
  fprintln w separatorLine

/-- The function `PrintReportToConsole`. -/
def PrintReportToConsole (io : Streams) (r : RiskReport) : List Event :=
  renderTextReport io.stdOut r

/-! ## Collaborators -/

/-- The cluster metadata record, of which only the version is read. -/
structure ClusterMeta where
  Version : String
deriving DecidableEq, Repr

/-- Modelled from the spec: the type `precheck.OutputFormat`, declared in a file that
is not part of the sources: Text, Markdown, HTML, or a value outside these three. -/
inductive OutputFormat where
  | OutputText
  | OutputMarkdown
  | OutputHTML
  | unsupported (raw : String)
deriving DecidableEq, Repr

/-- The catalog of forced changes loaded from the embedded metadata (`metadata.Catalog`). -/
structure Catalog where
  raw : String
deriving DecidableEq, Repr

/-- A rule of the engine (`prechecklib.Rule`), identified by its name. -/
structure Rule where
  name : String
deriving DecidableEq, Repr

/-- The behaviour of everything the command calls but does not define: library
functions, package-level hooks and the process streams. -/
structure Env where
  /-- The function `precheck.ParseOutputFormat`. -/
  ParseOutputFormat : String → Except GoError OutputFormat
  /-- The function `utils.FmtVer`. -/
  FmtVer : String → Except GoError String
  /-- The hook `clusterMetadataFunc`. -/
  clusterMetadataFunc : String → Except GoError ClusterMeta
  /-- The read of the embedded file `metadata/upgrade_changes.json`. -/
  readEmbeddedMetadata : Except GoError String
  /-- The function `metadata.LoadCatalogFromBytes`. -/
  LoadCatalogFromBytes : String → Except GoError Catalog
  /-- The constructor `rules.NewTargetVersionOrderRule`. -/
  NewTargetVersionOrderRule : Rule
  /-- The constructor `rules.NewForcedGlobalSysvarsRule`, which may return nil. -/
  NewForcedGlobalSysvarsRule : Catalog → Option Rule
  /-- The run of an engine built from a rule set (`prechecklib.NewEngine(...).Run`). -/
  engineRun : List Rule → Snapshot → Report
  /-- The function `precheck.RenderReport`. -/
  RenderReport : RiskReport → OutputFormat → Except GoError String
  /-- The function `os.WriteFile`. -/
  WriteFile : String → String → Nat → Option GoError
  /-- The hook `clusterUpgradeFunc`. -/
  clusterUpgradeFunc : UpgradeCall → Option GoError
  /-- The active streams of package `precheck`. -/
  streams : Streams
  /-- The error returned by writes to `os.Stdout`, if any. -/
  osStdoutFail : Option GoError

/-- The process standard output as a writer. -/
def Env.osStdout (env : Env) : Writer :=
  { chan := OutChan.osStdout, fail := env.osStdoutFail }

/-! ## `precheck/knowledge.go` and the engine entry points -/

/-- The function `loadEmbeddedCatalog`. -/
def loadEmbeddedCatalog (env : Env) : Except GoError Catalog :=
  match env.readEmbeddedMetadata with
  | .error err => .error (err.wrap "read embedded upgrade metadata")
  | .ok data => env.LoadCatalogFromBytes data

/-- The function `Run` of `risk_model.go`: a nil report with an error, or a report
with a nil error. -/
def Run (env : Env) (input : Input) : Option RiskReport × Option GoError :=
  let snapshot : Snapshot :=
    { SourceVersion := TrimSpace input.SourceVersion, TargetVersion := TrimSpace input.TargetVersion }
  let ruleset := [env.NewTargetVersionOrderRule]
  match loadEmbeddedCatalog env with
  | .error err => (none, some (err.wrap "load upgrade metadata"))
  | .ok catalog =>
    let ruleset := match env.NewForcedGlobalSysvarsRule catalog with
      | some rule => ruleset ++ [rule]
      | none => ruleset
    let report := env.engineRun ruleset snapshot
    (some (convertReport snapshot report), none)

/-- The function `RunPrecheckForUpgrade`. -/
def RunPrecheckForUpgrade (env : Env) (sourceVersion targetVersion : String) :
    (Option RiskReport × Option GoError) × List Event :=
  let input : Input := { SourceVersion := sourceVersion, TargetVersion := targetVersion }
  (Run env input, [Event.assessment sourceVersion targetVersion])

/-! ## `command/upgrade.go` -/

/-- The flag variables of `newUpgradeCmd`, together with the package-level
`skipConfirm` the command reads. -/
structure Flags where
  offlineMode : Bool := false
  ignoreVersionCheck : Bool := false
  tidbVer : String := ""
  tikvVer : String := ""
  pdVer : String := ""
  tsoVer : String := ""
  schedulingVer : String := ""
  tiflashVer : String := ""
  kvcdcVer : String := ""
  dashboardVer : String := ""
  cdcVer : String := ""
  alertmanagerVer : String := ""
  nodeExporterVer : String := ""
  blackboxExporterVer : String := ""
  tiproxyVer : String := ""
  restartTimeout : Int := 0
  precheckOnlyFlag : Bool := false
  withoutPrecheckFlag : Bool := false
  precheckOutputFormat : String := "text"
  precheckOutputFile : String := ""
  skipConfirm : Bool := false
deriving DecidableEq, Repr

/-- The function `outputPrecheckReport`. -/
def outputPrecheckReport (env : Env) (report : RiskReport) (format : OutputFormat)
    (outputPath : String) : Option GoError × List Event :=
  if format = OutputFormat.OutputText ∧ outputPath = "" then
    (none, PrintReportToConsole env.streams report)
  else
    match env.RenderReport report format with
    | .error err => (some err, [])
    | .ok payload =>
      if outputPath = "" then
        fprint env.osStdout (payload ++ "\n")
      else
        match env.WriteFile outputPath payload 0o644 with
        | some err => (some err, [Event.writeFile outputPath payload 0o644])
        | none =>
          (none, [Event.writeFile outputPath payload 0o644,
                  Event.log LogLevel.info ("Precheck report saved to " ++ outputPath)])

/-- The function `runParameterPrecheck`. -/
def runParameterPrecheck (env : Env) (clusterName targetVersion : String)
    (format : OutputFormat) (outputPath : String) :
    (Option RiskReport × Option GoError) × List Event :=
  let t0 := [Event.log LogLevel.info "Running parameter precheck..."]
  let (sourceVersion, t1) :=
    match env.clusterMetadataFunc clusterName with
    | .error err =>
      ("(unknown)", [Event.metadataLookup clusterName,
        Event.log LogLevel.warn ("unable to read current cluster metadata: " ++ err.msg)])
    | .ok metadata => (metadata.Version, [Event.metadataLookup clusterName])
  let ((report, runErr), t2) := RunPrecheckForUpgrade env sourceVersion targetVersion
  match report with
  | some r =>
    let (err, t3) := outputPrecheckReport env r format outputPath
    let runErr := if err ≠ none ∧ runErr = none then err else runErr
    ((report, runErr), t0 ++ t1 ++ t2 ++ t3)
  | none => ((report, runErr), t0 ++ t1 ++ t2)

/-- The map literal `componentVersions` of `RunE`. -/
def componentVersions (f : Flags) : List (Component × String) :=
  [ (Component.ComponentDashboard, f.dashboardVer),
    (Component.ComponentAlertmanager, f.alertmanagerVer),
    (Component.ComponentTiDB, f.tidbVer),
    (Component.ComponentTiKV, f.tikvVer),
    (Component.ComponentPD, f.pdVer),
    (Component.ComponentTSO, f.tsoVer),
    (Component.ComponentScheduling, f.schedulingVer),
    (Component.ComponentTiFlash, f.tiflashVer),
    (Component.ComponentTiKVCDC, f.kvcdcVer),
    (Component.ComponentCDC, f.cdcVer),
    (Component.ComponentTiProxy, f.tiproxyVer),
    (Component.ComponentBlackboxExporter, f.blackboxExporterVer),
    (Component.ComponentNodeExporter, f.nodeExporterVer) ]

/-- The call `clusterUpgradeFunc(clusterName, version, componentVersions, skipConfirm,
offlineMode, ignoreVersionCheck, restartTimeout)` of `RunE`. -/
def upgradeCall (f : Flags) (clusterName version : String) : UpgradeCall :=
  { clusterName := clusterName, version := version, compVers := componentVersions f,
    skip := f.skipConfirm, offline := f.offlineMode, ignoreVersion := f.ignoreVersionCheck,
    restartTimeout := f.restartTimeout }

/-- The call of `cmd.Help()`, which prints the usage and returns nil. -/
def cmdHelp : Option GoError × List Event := (none, [Event.help])

/-- The body of `RunE` once the arguments are known to be in the standalone
form, `args[0] == "precheck"`. -/
def runStandalone (env : Env) (f : Flags) (precheckFmt : OutputFormat) (args : List String) :
    Option GoError × List Event :=
  match args with
  | [_, clusterName, targetRaw] =>
    match env.FmtVer targetRaw with
    | .error err => (some err, [])
    | .ok version =>
      match runParameterPrecheck env clusterName version precheckFmt f.precheckOutputFile with
      | ((_, some err), t) => (some err, t)
      | ((_, none), t) =>
        (none, t ++ [Event.log LogLevel.info
          "Precheck complete. This was a dry run; no upgrade performed."])
  | _ => cmdHelp

/-- The body of `RunE` for the upgrade form. -/
def runUpgrade (env : Env) (f : Flags) (precheckFmt : OutputFormat) (args : List String) :
    Option GoError × List Event :=
  match args with
  | [clusterName, targetRaw] =>
    match env.FmtVer targetRaw with
    | .error err => (some err, [])
    | .ok version =>
      if f.withoutPrecheckFlag then
        let t0 := [Event.log LogLevel.warn
          "Skipping parameter precheck (--without-precheck). Proceeding at your own risk."]
        let call := upgradeCall f clusterName version
        (env.clusterUpgradeFunc call, t0 ++ [Event.upgrade call])
      else
        let ((_, preErr), t1) :=
          runParameterPrecheck env clusterName version precheckFmt f.precheckOutputFile
        let t2 := match preErr with
          | some err => [Event.log LogLevel.error ("parameter precheck failed: " ++ err.msg)]
          | none => []
        if preErr ≠ none ∧ f.precheckOnlyFlag then (preErr, t1 ++ t2)
        else if f.precheckOnlyFlag then
          (none, t1 ++ t2 ++ [Event.log LogLevel.info
            "Precheck complete. No upgrade performed (planning mode)."])
        else
          let call := upgradeCall f clusterName version
          if ¬ f.skipConfirm then
            match AskForUserConfirmation env.streams with
            | ((_, some askErr), t3) => (some askErr, t1 ++ t2 ++ t3)
            | ((false, none), t3) =>
              (none, t1 ++ t2 ++ t3 ++ [Event.log LogLevel.info "Aborting upgrade per user response."])
            | ((true, none), t3) =>
              (env.clusterUpgradeFunc call, t1 ++ t2 ++ t3 ++ [Event.upgrade call])
          else
            (env.clusterUpgradeFunc call, t1 ++ t2 ++ [Event.upgrade call])
  | _ => cmdHelp

/-- The function `RunE` of the command built by `newUpgradeCmd`: the result of the
command and the events of one execution. -/
def RunE (env : Env) (f : Flags) (args : List String) : Option GoError × List Event :=
  match env.ParseOutputFormat f.precheckOutputFormat with
  | .error err => (some err, [])
  | .ok precheckFmt =>
    if args.length > 0 ∧ args.head? = some "precheck" then
      runStandalone env f precheckFmt args
    else
      runUpgrade env f precheckFmt args

/-! ## Observations on a trace -/

/-- The calls of the upgrade action in a trace, in order. -/
def upgradeCalls (t : List Event) : List UpgradeCall :=
  t.filterMap (fun e => match e with
    | Event.upgrade call => some call
    | _ => none)

/-- Whether an event is a metadata lookup. -/
def Event.isMetadataLookup : Event → Bool
  | Event.metadataLookup _ => true
  | _ => false

/-- Whether an event is a call of the assessment. -/
def Event.isAssessment : Event → Bool
  | Event.assessment _ _ => true
  | _ => false

/-- Whether an event belongs to the confirmation prompt: its call or its read of
the input. -/
def Event.isPrompt : Event → Bool
  | Event.confirmationPrompt => true
  | Event.readInput => true
  | _ => false

/-- Events a run of the parameter precheck can perform: log lines, the metadata
lookup, the assessment, and writes to a channel or a file. -/
def Event.isPrecheckEvent : Event → Bool
  | Event.log _ _ => true
  | Event.metadataLookup _ => true
  | Event.assessment _ _ => true
  | Event.write _ _ => true
  | Event.writeFile _ _ _ => true
  | _ => false

/-- The source version `runParameterPrecheck` hands to the assessment: the stored
cluster version, or the placeholder when the metadata lookup fails. -/
def lookupSourceVersion (env : Env) (clusterName : String) : String :=
  match env.clusterMetadataFunc clusterName with
  | .error _ => "(unknown)"
  | .ok metadata => metadata.Version

/-- The confirmation gate of execute mode, which follows the precheck: the result
of the command and the calls of the upgrade action, as determined by the flags,
the active streams and the upgrade action alone. -/
def executeOutcome (env : Env) (f : Flags) (clusterName version : String) :
    Option GoError × List UpgradeCall :=
  if f.skipConfirm then
    (env.clusterUpgradeFunc (upgradeCall f clusterName version),
      [upgradeCall f clusterName version])
  else
    match (AskForUserConfirmation env.streams).1 with
    | (_, some askErr) => (some askErr, [])
    | (false, none) => (none, [])
    | (true, none) =>
      (env.clusterUpgradeFunc (upgradeCall f clusterName version),
        [upgradeCall f clusterName version])

/-! ## Observations on a report and on a normalized item -/

/-- The bucket invariant of a report: every item of a sequence carries the level
of that sequence. -/
def bucketInvariant (r : RiskReport) : Prop :=
  (∀ it ∈ r.High, it.Level = RiskHigh) ∧
  (∀ it ∈ r.Medium, it.Level = RiskMedium) ∧
  (∀ it ∈ r.Low, it.Level = RiskLow)

instance (r : RiskReport) : Decidable (bucketInvariant r) := by
  unfold bucketInvariant
  infer_instance

/-- Whether a string has neither leading nor trailing white space. -/
def isTrimmed (s : String) : Bool :=
  match s.data.head?, s.data.getLast? with
  | some first, some last => !isSpace first && !isSpace last
  | _, _ => true

/-- The string `convertReportItem` reads under a metadata key: the result of
`stringFromMeta` when the metadata is a string-keyed map, and the empty string
when it is nil or of any other type, in which case no key is read. -/
def metaString (metadata : Metadata) (key : String) : String :=
  match metadata with
  | .stringMap entries => stringFromMeta entries key
  | _ => ""

/-! ## Observations on the text report -/

/-- The header line of an item in the text report. -/
def itemHeader (it : RiskItem) : String :=
  if it.Category ≠ "" then "[" ++ ToUpper it.Level ++ "] (" ++ it.Category ++ ")\n"
  else "[" ++ ToUpper it.Level ++ "]\n"

/-- The fields of an item with their labels, in the order of the text report. -/
def labelledFields (it : RiskItem) : List (String × String) :=
  [("Component", it.Component), ("Parameter", it.Parameter), ("Scope", it.Scope),
   ("Current", it.Current), ("New Default", it.NewDefault), ("Impact", it.Impact),
   ("Suggestion", it.Suggestion), ("R&D Comments", it.Comments), ("Reason", it.Reason)]

/-- The line of a labelled field: nothing for an empty value. -/
def fieldLine (field : String × String) : List String :=
  if field.2 ≠ "" then ["  - " ++ field.1 ++ ": " ++ field.2 ++ "\n"] else []

/-- The texts an item contributes to the report: its header, one line for each
non-empty field in order, and the empty line that closes the item. -/
def itemTexts (it : RiskItem) : List String :=
  itemHeader it :: (labelledFields it).flatMap fieldLine ++ ["\n"]

/-- The texts before the sections of a text report: versions and summary. -/
def reportPreamble (r : RiskReport) : List String :=
  [ "Running parameter precheck...\n",
    "  Source Version: " ++ nullIfEmpty r.SourceVersion ++ "\n",
    "  Target Version: " ++ nullIfEmpty r.TargetVersion ++ "\n\n",
    "[PRECHECK REPORT - SUMMARY]\n",
    "Found " ++ toString r.Summary.Total ++ " potential risks:\n",
    "  - [HIGH RISK]: " ++ toString r.Summary.High ++ "\n",
    "  - [MEDIUM RISK]: " ++ toString r.Summary.Medium ++ "\n\n" ]

/-- The sections of a text report: for each non-empty sequence among High, Medium
and Low, in this order, a separator line followed by the texts of its items. -/
def reportSections (r : RiskReport) : List String :=
  ([r.High, r.Medium, r.Low].filter (fun items => items ≠ [])).flatMap
    (fun items => (separatorLine ++ "\n") :: items.flatMap itemTexts)

/-- The texts written to a channel in a trace, in order. -/
def writtenTo (chan : OutChan) (t : List Event) : List String :=
  t.filterMap (fun e => match e with
    | Event.write c text => if c = chan then some text else none
    | _ => none)

/-! ## Sample collaborators, in the manner of the stubs of the command tests -/

/-- A sample `ParseOutputFormat`, following the alias table of `TestParseOutputFormat`. -/
def sampleParseOutputFormat (s : String) : Except GoError OutputFormat :=
  if s = "" ∨ s = "text" then .ok OutputFormat.OutputText
  else if s = "md" ∨ s = "markdown" then .ok OutputFormat.OutputMarkdown
  else if s = "html" ∨ s = "htm" then .ok OutputFormat.OutputHTML
  else .error ⟨"unsupported output format"⟩

/-- A sample `FmtVer`: a version is accepted when it starts with the letter v. -/
def sampleFmtVer (s : String) : Except GoError String :=
  if s.data.head? = some (Char.ofNat 118) then .ok s else .error ⟨"not a valid SemVer string"⟩

/-- A sample environment: metadata version v6.5.0 as in the command tests, an
engine without findings, a writable buffer as output, the answer n as input and
an upgrade action that succeeds. -/
def sampleEnv : Env :=
  { ParseOutputFormat := sampleParseOutputFormat
    FmtVer := sampleFmtVer
    clusterMetadataFunc := fun _ => .ok { Version := "v6.5.0" }
    readEmbeddedMetadata := .ok ""
    LoadCatalogFromBytes := fun raw => .ok { raw := raw }
    NewTargetVersionOrderRule := { name := "core.target-version-order" }
    NewForcedGlobalSysvarsRule := fun _ => some { name := "core.forced-global-sysvars" }
    engineRun := fun _ _ => { Items := [] }
    RenderReport := fun _ _ => .ok "report"
    WriteFile := fun _ _ _ => none
    clusterUpgradeFunc := fun _ => none
    streams := { stdOut := { chan := OutChan.writer 0, fail := none },
                 stdIn := { data := "n\n", fail := ioEOF } }
    osStdoutFail := none }

/-- The sample environment with a catalog that fails to load, so that the
assessment returns an error. -/
def brokenCatalogEnv : Env :=
  { sampleEnv with LoadCatalogFromBytes := fun _ => .error ⟨"invalid catalog"⟩ }

/-- The sample environment with a file system that refuses every write. -/
def readOnlyDiskEnv : Env :=
  { sampleEnv with WriteFile := fun _ _ _ => some ⟨"permission denied"⟩ }

/-- A sample finding of a given rule, without suggestions, details or metadata. -/
def plainFinding (rule : String) : ReportItem :=
  { Rule := rule, Severity := Severity.SeverityInfo, Message := "", Suggestions := [],
    Details := [], Metadata := Metadata.nil }

/-- A sample finding whose suggestion and detail strings carry outer blanks. -/
def paddedFinding : ReportItem :=
  { Rule := "custom.rule", Severity := Severity.SeverityWarning, Message := " check the value ",
    Suggestions := [" retry "], Details := [" note "],
    Metadata := Metadata.stringMap [("details", MetaValue.str "from metadata")] }

/-- A sample finding of the forced-global-system-variable rule, with a blank scope
and no component in its metadata. -/
def forcedSysvarFinding : ReportItem :=
  { Rule := "core.forced-global-sysvars", Severity := Severity.SeverityWarning,
    Message := "tidb_server_memory_limit will be forced to 80%",
    Suggestions := [], Details := [""],
    Metadata := Metadata.stringMap
      [("target", MetaValue.str " tidb_server_memory_limit "),
       ("default_value", MetaValue.str "80%"),
       ("scope", MetaValue.str "  "),
       ("reason", MetaValue.nil),
       ("summary", MetaValue.stringer "forced by the upgrade"),
       ("details", MetaValue.str " see the release notes ")] }

/-- The package streams at process start: `os.Stdout` and an empty `os.Stdin`. -/
def processStreams : Streams :=
  { stdOut := { chan := OutChan.osStdout, fail := none },
    stdIn := { data := "", fail := ioEOF } }

/-- A writable buffer substituted for the output. -/
def bufferWriter : Writer := { chan := OutChan.writer 1, fail := none }

/-- A sample finding of severity Blocker. -/
def blockerFinding : ReportItem :=
  { Rule := "core.target-version-order", Severity := Severity.SeverityBlocker,
    Message := "target version is not greater than the source version",
    Suggestions := ["choose a newer target version"], Details := [],
    Metadata := Metadata.nil }

/-- The sample environment with an engine that reports a Blocker finding. -/
def highRiskEnv : Env :=
  { sampleEnv with engineRun := fun _ _ => { Items := [blockerFinding] } }

/-- A sample item with four non-empty fields. -/
def sampleItem : RiskItem :=
  { Level := RiskMedium, Category := "Compatibility", Component := "TiDB",
    Parameter := "sql_mode", Impact := "Stricter SQL mode", Suggestion := "Test with new default" }

/-- Sample flags of a run without assessment: skip-assessment and
skip-confirmation set, the versions of tikv and pd pinned, offline and
ignore-version-check set, a restart timeout of five seconds. -/
def pinnedSkipFlags : Flags :=
  { withoutPrecheckFlag := true, skipConfirm := true, tikvVer := "v7.1.1", pdVer := "v7.1.2",
    offlineMode := true, ignoreVersionCheck := true, restartTimeout := 5000000000 }

/-- A sample finding whose metadata map lacks the keys "target", "default_value",
"reason" and "summary" and binds "scope" to a typed-nil Stringer. -/
def typedNilStringerFinding : RawFinding :=
  { Rule := "custom.rule", Severity := Severity.SeverityWarning, Message := "check the value",
    Suggestions := [], Details := [],
    Metadata := BagMetadata.stringMap [("scope", BagValue.panickingStringer)] }

/-- A sample finding of the forced-global-system-variable rule whose metadata
gives a scope, a component and a reason, each with outer blanks. -/
def sessionScopeFinding : ReportItem :=
  { Rule := "core.forced-global-sysvars", Severity := Severity.SeverityWarning,
    Message := "tidb_enable_x will be forced", Suggestions := [], Details := [],
    Metadata := Metadata.stringMap
      [("scope", MetaValue.str " Session "),
       ("component", MetaValue.str " TiKV "),
       ("reason", MetaValue.str " because "),
       ("summary", MetaValue.str "not used")] }

/-- A sample finding with two suggestion strings and two detail strings. -/
def twoDetailFinding : ReportItem :=
  { Rule := "custom.rule", Severity := Severity.SeverityInfo, Message := "two of each",
    Suggestions := ["first", "second"], Details := ["one", "two"],
    Metadata := Metadata.stringMap [("details", MetaValue.str "not used")] }

/-- A sample item whose level is written in small letters and which has no
category. -/
def lowerCaseItem : RiskItem :=
  { Level := "low risk", Parameter := "max-connections" }

/-! # Theorems -/

/-! ## Events of the precheck -/

theorem fprint_events (w : Writer) (text : String) :
    ∀ e ∈ (fprint w text).2, e.isPrecheckEvent = true := by
  intro e he
  unfold fprint at he
  split at he <;> simp at he
  subst he; rfl

theorem printRiskItem_events (w : Writer) (it : RiskItem) :
    ∀ e ∈ printRiskItem w it, e.isPrecheckEvent = true := by
  intro e he
  simp only [printRiskItem, fprintf, fprintln, List.mem_append] at he
  have hf := fprint_events w
  rcases he with ((((((((((h | h) | h) | h) | h) | h) | h) | h) | h) | h) | h) <;>
    first
      | exact hf _ e h
      | (split at h <;> first | exact hf _ e h | simp at h)

theorem renderSection_events (w : Writer) (items : List RiskItem) :
    ∀ e ∈ renderSection w items, e.isPrecheckEvent = true := by
  intro e he
  unfold renderSection at he
  split at he
  · simp only [List.mem_append, List.mem_flatMap, fprintln] at he
    rcases he with h | ⟨it, _, h⟩
    · exact fprint_events _ _ e h
    · exact printRiskItem_events w it e h
  · simp at he

theorem renderTextReport_events (w : Writer) (r : RiskReport) :
    ∀ e ∈ renderTextReport w r, e.isPrecheckEvent = true := by
  intro e he
  simp only [renderTextReport, fprintf, fprintln, List.mem_append] at he
  have hf := fprint_events w
  have hs := renderSection_events w
  rcases he with ((((((((((h | h) | h) | h) | h) | h) | h) | h) | h) | h) | h) | h <;>
    first
      | exact hf _ e h
      | exact hs _ e h
      | (split at h <;> first | exact hf _ e h | simp at h)


theorem outputPrecheckReport_events (env : Env) (report : RiskReport) (format : OutputFormat)
    (outputPath : String) :
    ∀ e ∈ (outputPrecheckReport env report format outputPath).2, e.isPrecheckEvent = true := by
  intro e he
  unfold outputPrecheckReport at he
  split at he
  · exact renderTextReport_events _ _ e he
  · split at he
    · simp at he
    · split at he
      · exact fprint_events _ _ e he
      · split at he <;> simp at he
        · subst he; rfl
        · rcases he with h | h <;> subst h <;> rfl

theorem runParameterPrecheck_events (env : Env) (clusterName targetVersion : String)
    (format : OutputFormat) (outputPath : String) :
    ∀ e ∈ (runParameterPrecheck env clusterName targetVersion format outputPath).2,
      e.isPrecheckEvent = true := by
  intro e he
  have ho := outputPrecheckReport_events env
  unfold runParameterPrecheck RunPrecheckForUpgrade at he
  cases hm : env.clusterMetadataFunc clusterName <;> simp only [hm] at he
  all_goals
    split at he
    all_goals
      simp only [List.mem_append, List.mem_cons, List.mem_singleton, List.not_mem_nil,
        or_false] at he
      casesm* _ ∨ _
  all_goals
    first
      | (subst e; rfl)
      | exact ho _ _ _ e (by assumption)

/-- The result of `runParameterPrecheck` in terms of the assessment and of the
report output. -/
theorem runParameterPrecheck_result (env : Env) (clusterName targetVersion : String)
    (format : OutputFormat) (outputPath : String) :
    (runParameterPrecheck env clusterName targetVersion format outputPath).1 =
      match Run env ⟨lookupSourceVersion env clusterName, targetVersion⟩ with
      | (some r, runErr) =>
        (some r, if (outputPrecheckReport env r format outputPath).1 ≠ none ∧ runErr = none
                 then (outputPrecheckReport env r format outputPath).1 else runErr)
      | (none, runErr) => (none, runErr) := by
  unfold runParameterPrecheck RunPrecheckForUpgrade lookupSourceVersion
  cases hm : env.clusterMetadataFunc clusterName <;> simp only
  all_goals
    generalize Run env _ = R
    rcases R with ⟨_ | r, runErr⟩ <;> simp

theorem upgradeCalls_append (s t : List Event) :
    upgradeCalls (s ++ t) = upgradeCalls s ++ upgradeCalls t := by
  simp [upgradeCalls, List.filterMap_append]

theorem upgradeCalls_of_precheck (t : List Event) (h : ∀ e ∈ t, e.isPrecheckEvent = true) :
    upgradeCalls t = [] := by
  induction t with
  | nil => rfl
  | cons e t ih =>
    have he := h e (List.mem_cons_self _ _)
    have ht := ih (fun x hx => h x (List.mem_cons_of_mem _ hx))
    cases e <;> simp_all [upgradeCalls, Event.isPrecheckEvent]

theorem upgradeCalls_runParameterPrecheck (env : Env) (clusterName targetVersion : String)
    (format : OutputFormat) (outputPath : String) :
    upgradeCalls (runParameterPrecheck env clusterName targetVersion format outputPath).2 = [] :=
  upgradeCalls_of_precheck _ (runParameterPrecheck_events env clusterName targetVersion format outputPath)

theorem upgradeCalls_nil : upgradeCalls [] = [] := rfl

theorem upgradeCalls_log (level : LogLevel) (msg : String) (t : List Event) :
    upgradeCalls (Event.log level msg :: t) = upgradeCalls t := rfl

theorem upgradeCalls_upgrade (call : UpgradeCall) (t : List Event) :
    upgradeCalls (Event.upgrade call :: t) = call :: upgradeCalls t := rfl

theorem upgradeCalls_ask (io : Streams) :
    upgradeCalls (AskForUserConfirmation io).2 = [] := by
  unfold AskForUserConfirmation fprint
  cases io.stdOut.fail <;> simp only
  · split <;> simp [upgradeCalls]
  · simp [upgradeCalls]

/-- In the standalone form no event of the run is a call of the upgrade action. -/
theorem upgradeCalls_runStandalone (env : Env) (f : Flags) (precheckFmt : OutputFormat)
    (args : List String) : upgradeCalls (runStandalone env f precheckFmt args).2 = [] := by
  unfold runStandalone
  split
  · split
    · rfl
    · split
      all_goals
        rename_i h
        have key := congrArg (fun x => upgradeCalls x.2) h
        simp only [upgradeCalls_runParameterPrecheck] at key
        simp [upgradeCalls_append, ← key, upgradeCalls_log, upgradeCalls_nil]
  · rfl

/-- The calls of the upgrade action made by the upgrade form: none, or the single
call built from the flags, and then only past the gates of the decision order. -/
theorem upgradeCalls_runUpgrade (env : Env) (f : Flags) (precheckFmt : OutputFormat)
    (args : List String) :
    upgradeCalls (runUpgrade env f precheckFmt args).2 = [] ∨
    ((∃ clusterName targetRaw version, args = [clusterName, targetRaw] ∧
        env.FmtVer targetRaw = .ok version ∧
        upgradeCalls (runUpgrade env f precheckFmt args).2 = [upgradeCall f clusterName version]) ∧
      (f.withoutPrecheckFlag = true ∨
        (f.precheckOnlyFlag = false ∧
          (f.skipConfirm = true ∨ (AskForUserConfirmation env.streams).1 = (true, none))))) := by
  unfold runUpgrade
  split
  · rename_i clusterName targetRaw
    split
    · left; rfl
    · rename_i version hver
      by_cases hskip : f.withoutPrecheckFlag = true
      · right
        simp only [hskip, if_true]
        exact ⟨⟨clusterName, targetRaw, version, rfl, hver, rfl⟩, Or.inl trivial⟩
      · simp only [hskip]
        have hP := upgradeCalls_runParameterPrecheck env clusterName version precheckFmt
          f.precheckOutputFile
        generalize runParameterPrecheck env clusterName version precheckFmt
          f.precheckOutputFile = P at hP
        rcases P with ⟨⟨rep, preErr⟩, t1⟩
        simp only at hP
        by_cases hplan : f.precheckOnlyFlag = true
        · left
          cases preErr <;>
            simp [hplan, upgradeCalls_append, hP, upgradeCalls_log, upgradeCalls_nil]
        · simp only [hplan, and_false, if_false]
          have ht2 : upgradeCalls (match preErr with
              | some err => [Event.log LogLevel.error ("parameter precheck failed: " ++ err.msg)]
              | none => []) = [] := by cases preErr <;> rfl
          by_cases hconf : f.skipConfirm = true
          · right
            refine ⟨⟨clusterName, targetRaw, version, rfl, hver, ?_⟩, Or.inr ⟨by simp [hplan], Or.inl hconf⟩⟩
            simp [hconf, upgradeCalls_append, hP, ht2, upgradeCalls_upgrade, upgradeCalls_nil]
          · have hA := upgradeCalls_ask env.streams
            simp only [hconf]
            generalize hAeq : AskForUserConfirmation env.streams = A at hA
            rcases A with ⟨⟨ans, askErr⟩, t3⟩
            simp only at hA
            cases askErr with
            | some e => left; simp [upgradeCalls_append, hP, ht2, hA]
            | none =>
              cases ans with
              | false =>
                left; simp [upgradeCalls_append, hP, ht2, hA, upgradeCalls_log, upgradeCalls_nil]
              | true =>
                right
                refine ⟨⟨clusterName, targetRaw, version, rfl, hver, ?_⟩,
                  Or.inr ⟨by simp [hplan], Or.inr rfl⟩⟩
                simp [upgradeCalls_append, hP, ht2, hA, upgradeCalls_upgrade, upgradeCalls_nil]
  · left; rfl

/-! ## The command: dispatch on the argument list -/

theorem RunE_standalone (env : Env) (f : Flags) (args : List String)
    (hform : args.head? = some "precheck") :
    RunE env f args =
      match env.ParseOutputFormat f.precheckOutputFormat with
      | .error err => (some err, [])
      | .ok precheckFmt => runStandalone env f precheckFmt args := by
  have hlen : args.length > 0 := by
    cases args with
    | nil => simp at hform
    | cons a t => simp
  unfold RunE
  split
  · rfl
  · simp [hlen, hform]

theorem RunE_upgradeForm (env : Env) (f : Flags) (args : List String)
    (hform : args.head? ≠ some "precheck") :
    RunE env f args =
      match env.ParseOutputFormat f.precheckOutputFormat with
      | .error err => (some err, [])
      | .ok precheckFmt => runUpgrade env f precheckFmt args := by
  unfold RunE
  split
  · rfl
  · simp [hform]

theorem upgradeCalls_RunE_standalone (env : Env) (f : Flags) (args : List String)
    (hform : args.head? = some "precheck") : upgradeCalls (RunE env f args).2 = [] := by
  rw [RunE_standalone env f args hform]
  split
  · rfl
  · exact upgradeCalls_runStandalone env f _ args

/-- C1: in the standalone form (first argument "precheck") the upgrade action is
called zero times, whatever the flags, the metadata lookup and the assessment do;
with three arguments, a parsed output format and a formatted version, the command
succeeds when the assessment and the report output succeed, and returns the
error of the assessment when the assessment fails. -/
theorem standalone_precheck_never_upgrades (env : Env) (f : Flags) (args : List String)
    (hform : args.head? = some "precheck") :
    upgradeCalls (RunE env f args).2 = [] ∧
    ∀ clusterName targetRaw precheckFmt version,
      args = ["precheck", clusterName, targetRaw] →
      env.ParseOutputFormat f.precheckOutputFormat = .ok precheckFmt →
      env.FmtVer targetRaw = .ok version →
      (∀ report, Run env ⟨lookupSourceVersion env clusterName, version⟩ = (some report, none) →
        (outputPrecheckReport env report precheckFmt f.precheckOutputFile).1 = none →
        (RunE env f args).1 = none) ∧
      (∀ err, (Run env ⟨lookupSourceVersion env clusterName, version⟩).2 = some err →
        (RunE env f args).1 = some err) := by
  refine ⟨upgradeCalls_RunE_standalone env f args hform, ?_⟩
  rw [RunE_standalone env f args hform]
  · intro clusterName targetRaw precheckFmt version hargs hfmt hver
    subst hargs
    have hres := runParameterPrecheck_result env clusterName version precheckFmt
      f.precheckOutputFile
    simp only [hfmt, runStandalone, hver]
    generalize runParameterPrecheck env clusterName version precheckFmt
      f.precheckOutputFile = P at hres
    rcases P with ⟨⟨rep, preErr⟩, t⟩
    constructor
    · intro report hrun hout
      simp only [hrun, hout] at hres
      simp at hres
      obtain ⟨-, rfl⟩ := hres
      rfl
    · intro err hrun
      generalize Run env ⟨lookupSourceVersion env clusterName, version⟩ = R at hres hrun
      rcases R with ⟨_ | r, runErr⟩
      all_goals
        simp only at hrun
        subst hrun
        simp at hres
        obtain ⟨-, rfl⟩ := hres
        rfl

/-- Witness of C1: the scenario of the command tests, and the same command against
a catalog that fails to load. -/
theorem standalone_precheck_never_upgrades_witness :
    upgradeCalls (RunE sampleEnv {} ["precheck", "cluster1", "v7.1.0"]).2 = [] ∧
    (RunE sampleEnv {} ["precheck", "cluster1", "v7.1.0"]).1 = none ∧
    (RunE brokenCatalogEnv {} ["precheck", "cluster1", "v7.1.0"]).1 =
      some ⟨"load upgrade metadata: invalid catalog"⟩ :=
  ⟨(standalone_precheck_never_upgrades sampleEnv {} ["precheck", "cluster1", "v7.1.0"]
      (by decide)).1,
   ((standalone_precheck_never_upgrades sampleEnv {} ["precheck", "cluster1", "v7.1.0"]
      (by decide)).2 "cluster1" "v7.1.0" OutputFormat.OutputText "v7.1.0" rfl rfl
      rfl).1 { SourceVersion := "v6.5.0", TargetVersion := "v7.1.0" } (by decide)
      (by decide),
   ((standalone_precheck_never_upgrades brokenCatalogEnv {} ["precheck", "cluster1", "v7.1.0"]
      (by decide)).2 "cluster1" "v7.1.0" OutputFormat.OutputText "v7.1.0" rfl rfl
      rfl).2 ⟨"load upgrade metadata: invalid catalog"⟩ (by decide)⟩

/-- C2: in one execution the upgrade action is called at most once, and a call
implies that the command is not in the standalone form and that either
skip-assessment is set, or plan-only is unset and skip-confirmation is set or the
confirmation prompt answered affirmatively. -/
theorem upgrade_invoked_at_most_once (env : Env) (f : Flags) (args : List String) :
    (upgradeCalls (RunE env f args).2).length ≤ 1 ∧
    (upgradeCalls (RunE env f args).2 ≠ [] →
      args.head? ≠ some "precheck" ∧
      (f.withoutPrecheckFlag = true ∨
        (f.precheckOnlyFlag = false ∧
          (f.skipConfirm = true ∨ (AskForUserConfirmation env.streams).1 = (true, none))))) := by
  by_cases hform : args.head? = some "precheck"
  · have h := upgradeCalls_RunE_standalone env f args hform
    simp [h]
  · rw [RunE_upgradeForm env f args hform]
    split
    · simp [upgradeCalls_nil]
    · rename_i precheckFmt _
      rcases upgradeCalls_runUpgrade env f precheckFmt args with h | ⟨⟨c, v, ver, _, _, h⟩, hg⟩
      · simp [h]
      · simp [h, hform, hg]

/-- Witness of C2: with skip-assessment and skip-confirmation set there is a call
of the upgrade action, a single one, and the command is outside the standalone
form. -/
theorem upgrade_invoked_at_most_once_witness :
    (upgradeCalls (RunE sampleEnv { withoutPrecheckFlag := true, skipConfirm := true }
      ["cluster1", "v7.1.0"]).2).length ≤ 1 ∧
    upgradeCalls (RunE sampleEnv { withoutPrecheckFlag := true, skipConfirm := true }
      ["cluster1", "v7.1.0"]).2 ≠ [] ∧
    ["cluster1", "v7.1.0"].head? ≠ some "precheck" :=
  ⟨(upgrade_invoked_at_most_once sampleEnv { withoutPrecheckFlag := true, skipConfirm := true }
      ["cluster1", "v7.1.0"]).1,
   by decide,
   ((upgrade_invoked_at_most_once sampleEnv { withoutPrecheckFlag := true, skipConfirm := true }
      ["cluster1", "v7.1.0"]).2 (by decide)).1⟩

/-- C3: in the two-argument upgrade form with a parsed output format and a
formatted target version, when skip-assessment is set the run consists of the
warning and one call of the upgrade action with the cluster name, the formatted
version, the override map that binds each of the thirteen components to the
value of its version flag, and the skip-confirmation, offline,
ignore-version-check and restart-timeout values; there is no metadata lookup,
assessment or prompt, and the result is the result of the upgrade action. -/
theorem skip_assessment_upgrades_directly (env : Env) (f : Flags)
    (clusterName targetRaw version : String) (precheckFmt : OutputFormat)
    (hform : clusterName ≠ "precheck")
    (hfmt : env.ParseOutputFormat f.precheckOutputFormat = .ok precheckFmt)
    (hver : env.FmtVer targetRaw = .ok version)
    (hskip : f.withoutPrecheckFlag = true) :
    (RunE env f [clusterName, targetRaw]).1 =
      env.clusterUpgradeFunc
        { clusterName := clusterName, version := version,
          compVers :=
            [(Component.ComponentDashboard, f.dashboardVer),
             (Component.ComponentAlertmanager, f.alertmanagerVer),
             (Component.ComponentTiDB, f.tidbVer),
             (Component.ComponentTiKV, f.tikvVer),
             (Component.ComponentPD, f.pdVer),
             (Component.ComponentTSO, f.tsoVer),
             (Component.ComponentScheduling, f.schedulingVer),
             (Component.ComponentTiFlash, f.tiflashVer),
             (Component.ComponentTiKVCDC, f.kvcdcVer),
             (Component.ComponentCDC, f.cdcVer),
             (Component.ComponentTiProxy, f.tiproxyVer),
             (Component.ComponentBlackboxExporter, f.blackboxExporterVer),
             (Component.ComponentNodeExporter, f.nodeExporterVer)],
          skip := f.skipConfirm, offline := f.offlineMode,
          ignoreVersion := f.ignoreVersionCheck, restartTimeout := f.restartTimeout } ∧
    upgradeCalls (RunE env f [clusterName, targetRaw]).2 =
      [{ clusterName := clusterName, version := version,
         compVers :=
           [(Component.ComponentDashboard, f.dashboardVer),
            (Component.ComponentAlertmanager, f.alertmanagerVer),
            (Component.ComponentTiDB, f.tidbVer),
            (Component.ComponentTiKV, f.tikvVer),
            (Component.ComponentPD, f.pdVer),
            (Component.ComponentTSO, f.tsoVer),
            (Component.ComponentScheduling, f.schedulingVer),
            (Component.ComponentTiFlash, f.tiflashVer),
            (Component.ComponentTiKVCDC, f.kvcdcVer),
            (Component.ComponentCDC, f.cdcVer),
            (Component.ComponentTiProxy, f.tiproxyVer),
            (Component.ComponentBlackboxExporter, f.blackboxExporterVer),
            (Component.ComponentNodeExporter, f.nodeExporterVer)],
         skip := f.skipConfirm, offline := f.offlineMode,
         ignoreVersion := f.ignoreVersionCheck, restartTimeout := f.restartTimeout }] ∧
    (∀ e ∈ (RunE env f [clusterName, targetRaw]).2,
      e.isMetadataLookup = false ∧ e.isAssessment = false ∧ e.isPrompt = false) ∧
    Event.log LogLevel.warn
      "Skipping parameter precheck (--without-precheck). Proceeding at your own risk." ∈
        (RunE env f [clusterName, targetRaw]).2 := by
  have hhead : [clusterName, targetRaw].head? ≠ some "precheck" := by simpa using hform
  rw [RunE_upgradeForm env f _ hhead]
  have hrun : runUpgrade env f precheckFmt [clusterName, targetRaw] =
      (env.clusterUpgradeFunc (upgradeCall f clusterName version),
       [Event.log LogLevel.warn
          "Skipping parameter precheck (--without-precheck). Proceeding at your own risk.",
        Event.upgrade (upgradeCall f clusterName version)]) := by
    simp [runUpgrade, hver, hskip]
  simp only [hfmt, hrun]
  refine ⟨rfl, rfl, ?_, List.mem_cons_self _ _⟩
  intro e he
  simp only [List.mem_cons, List.mem_singleton, List.not_mem_nil, or_false] at he
  rcases he with h | h <;> subst h <;> exact ⟨rfl, rfl, rfl⟩

/-- Witness of C3: the scenario `upgrade cluster1 v7.1.0 --without-precheck` with
skip-confirmation enabled, the versions of tikv and pd pinned, the offline and
ignore-version-check flags set and a restart timeout of five seconds. -/
theorem skip_assessment_upgrades_directly_witness :
    (RunE sampleEnv pinnedSkipFlags ["cluster1", "v7.1.0"]).1 = none ∧
    upgradeCalls (RunE sampleEnv pinnedSkipFlags ["cluster1", "v7.1.0"]).2 =
      [{ clusterName := "cluster1", version := "v7.1.0",
         compVers :=
           [(Component.ComponentDashboard, ""),
            (Component.ComponentAlertmanager, ""),
            (Component.ComponentTiDB, ""),
            (Component.ComponentTiKV, "v7.1.1"),
            (Component.ComponentPD, "v7.1.2"),
            (Component.ComponentTSO, ""),
            (Component.ComponentScheduling, ""),
            (Component.ComponentTiFlash, ""),
            (Component.ComponentTiKVCDC, ""),
            (Component.ComponentCDC, ""),
            (Component.ComponentTiProxy, ""),
            (Component.ComponentBlackboxExporter, ""),
            (Component.ComponentNodeExporter, "")],
         skip := true, offline := true, ignoreVersion := true,
         restartTimeout := 5000000000 }] := by
  have h := skip_assessment_upgrades_directly sampleEnv pinnedSkipFlags "cluster1" "v7.1.0"
    "v7.1.0" OutputFormat.OutputText (by decide) rfl rfl rfl
  exact ⟨h.1, h.2.1⟩

/-- C4, counterexample: with both the plan-only and the skip-assessment flag set,
the two-argument command makes no assessment and calls the upgrade action once. -/
theorem plan_only_with_skip_assessment_upgrades :
    upgradeCalls (RunE sampleEnv { precheckOnlyFlag := true, withoutPrecheckFlag := true }
      ["cluster1", "v7.1.0"]).2 =
      [upgradeCall { precheckOnlyFlag := true, withoutPrecheckFlag := true } "cluster1" "v7.1.0"] ∧
    (RunE sampleEnv { precheckOnlyFlag := true, withoutPrecheckFlag := true }
      ["cluster1", "v7.1.0"]).2.all (fun e => !e.isAssessment) = true := by
  decide

theorem assessment_mem_runParameterPrecheck (env : Env) (clusterName targetVersion : String)
    (format : OutputFormat) (outputPath : String) :
    Event.assessment (lookupSourceVersion env clusterName) targetVersion ∈
      (runParameterPrecheck env clusterName targetVersion format outputPath).2 := by
  unfold runParameterPrecheck RunPrecheckForUpgrade lookupSourceVersion
  cases hm : env.clusterMetadataFunc clusterName <;> simp only
  all_goals
    generalize Run env _ = R
    rcases R with ⟨_ | r, runErr⟩ <;> simp

/-- C4, amended: when the plan-only flag is set and the skip-assessment flag is
unset on the two-argument upgrade command, the upgrade action is not called, for
every value of the other flags and every assessment outcome, and the assessment
is run as soon as the output format and the target version have parsed. -/
theorem plan_only_runs_assessment_without_upgrade (env : Env) (f : Flags)
    (clusterName targetRaw : String)
    (hform : clusterName ≠ "precheck")
    (hskip : f.withoutPrecheckFlag = false)
    (hplan : f.precheckOnlyFlag = true) :
    upgradeCalls (RunE env f [clusterName, targetRaw]).2 = [] ∧
    (∀ (precheckFmt : OutputFormat) (version : String),
      env.ParseOutputFormat f.precheckOutputFormat = .ok precheckFmt →
      env.FmtVer targetRaw = .ok version →
      Event.assessment (lookupSourceVersion env clusterName) version ∈
        (RunE env f [clusterName, targetRaw]).2) := by
  have hhead : [clusterName, targetRaw].head? ≠ some "precheck" := by simpa using hform
  rw [RunE_upgradeForm env f _ hhead]
  constructor
  · split
    · rfl
    · rename_i precheckFmt _
      rcases upgradeCalls_runUpgrade env f precheckFmt [clusterName, targetRaw] with
        h | ⟨-, hg⟩
      · exact h
      · simp [hskip, hplan] at hg
  · intro precheckFmt version hfmt hver
    have hmem := assessment_mem_runParameterPrecheck env clusterName version precheckFmt
      f.precheckOutputFile
    simp only [hfmt, runUpgrade, hver, hskip, hplan]
    generalize runParameterPrecheck env clusterName version precheckFmt
      f.precheckOutputFile = P at hmem
    rcases P with ⟨⟨rep, preErr⟩, t1⟩
    simp only at hmem
    cases preErr <;> simp [hmem]

/-- Witness of C4 as amended: the scenario `upgrade dummy-cluster v7.1.0 --precheck`
of the command tests, with skip-confirmation set in addition. -/
theorem plan_only_runs_assessment_without_upgrade_witness :
    upgradeCalls (RunE sampleEnv { precheckOnlyFlag := true, skipConfirm := true }
      ["dummy-cluster", "v7.1.0"]).2 = [] ∧
    Event.assessment "v6.5.0" "v7.1.0" ∈
      (RunE sampleEnv { precheckOnlyFlag := true, skipConfirm := true }
        ["dummy-cluster", "v7.1.0"]).2 :=
  ⟨(plan_only_runs_assessment_without_upgrade sampleEnv
      { precheckOnlyFlag := true, skipConfirm := true } "dummy-cluster" "v7.1.0"
      (by decide) rfl rfl).1,
   (plan_only_runs_assessment_without_upgrade sampleEnv
      { precheckOnlyFlag := true, skipConfirm := true } "dummy-cluster" "v7.1.0"
      (by decide) rfl rfl).2 OutputFormat.OutputText "v7.1.0" rfl rfl⟩

/-- C5: in execute mode with skip-confirmation unset, when the prompt returns a
negative answer and no error the command returns nil and the upgrade action is
not called, whatever the assessment did. -/
theorem declined_confirmation_aborts_successfully (env : Env) (f : Flags)
    (clusterName targetRaw version : String) (precheckFmt : OutputFormat)
    (hform : clusterName ≠ "precheck")
    (hfmt : env.ParseOutputFormat f.precheckOutputFormat = .ok precheckFmt)
    (hver : env.FmtVer targetRaw = .ok version)
    (hskip : f.withoutPrecheckFlag = false)
    (hplan : f.precheckOnlyFlag = false)
    (hconf : f.skipConfirm = false)
    (hask : (AskForUserConfirmation env.streams).1 = (false, none)) :
    (RunE env f [clusterName, targetRaw]).1 = none ∧
    upgradeCalls (RunE env f [clusterName, targetRaw]).2 = [] := by
  have hhead : [clusterName, targetRaw].head? ≠ some "precheck" := by simpa using hform
  have hcalls := upgradeCalls_runUpgrade env f precheckFmt [clusterName, targetRaw]
  rw [RunE_upgradeForm env f _ hhead]
  simp only [hfmt] at hcalls ⊢
  constructor
  · simp only [runUpgrade, hver, hskip, hplan, hconf]
    generalize AskForUserConfirmation env.streams = A at hask
    rcases A with ⟨⟨ans, askErr⟩, t3⟩
    simp only [Prod.mk.injEq] at hask
    obtain ⟨rfl, rfl⟩ := hask
    simp
  · rcases hcalls with h | ⟨-, hg⟩
    · exact h
    · simp [hskip, hplan, hconf, hask] at hg

/-- Witness of C5: the scenario `upgrade cluster1 v7.1.0` with the input "n". -/
theorem declined_confirmation_aborts_successfully_witness :
    (RunE sampleEnv {} ["cluster1", "v7.1.0"]).1 = none ∧
    upgradeCalls (RunE sampleEnv {} ["cluster1", "v7.1.0"]).2 = [] :=
  declined_confirmation_aborts_successfully sampleEnv {} "cluster1" "v7.1.0" "v7.1.0"
    OutputFormat.OutputText (by decide) rfl rfl rfl rfl rfl (by decide)

theorem isPrompt_of_precheck (e : Event) (h : e.isPrecheckEvent = true) : e.isPrompt = false := by
  cases e <;> simp_all [Event.isPrecheckEvent, Event.isPrompt]

/-- C6: in plan-only mode with skip-assessment unset (two-argument form, parsed
inputs) the result of the command is exactly the error returned by
`runParameterPrecheck`, so that error when there is one and nil otherwise, and
the run neither calls the confirmation prompt nor reads the input. -/
theorem plan_only_returns_precheck_result (env : Env) (f : Flags)
    (clusterName targetRaw version : String) (precheckFmt : OutputFormat)
    (hform : clusterName ≠ "precheck")
    (hfmt : env.ParseOutputFormat f.precheckOutputFormat = .ok precheckFmt)
    (hver : env.FmtVer targetRaw = .ok version)
    (hskip : f.withoutPrecheckFlag = false)
    (hplan : f.precheckOnlyFlag = true) :
    (RunE env f [clusterName, targetRaw]).1 =
      (runParameterPrecheck env clusterName version precheckFmt f.precheckOutputFile).1.2 ∧
    ∀ e ∈ (RunE env f [clusterName, targetRaw]).2, e.isPrompt = false := by
  have hhead : [clusterName, targetRaw].head? ≠ some "precheck" := by simpa using hform
  have hev := runParameterPrecheck_events env clusterName version precheckFmt f.precheckOutputFile
  rw [RunE_upgradeForm env f _ hhead]
  simp only [hfmt, runUpgrade, hver, hskip, hplan]
  generalize runParameterPrecheck env clusterName version precheckFmt
    f.precheckOutputFile = P at hev
  rcases P with ⟨⟨rep, preErr⟩, t1⟩
  simp only at hev
  cases preErr with
  | none =>
    refine ⟨by simp, ?_⟩
    intro e he
    simp at he
    rcases he with h | h
    · exact isPrompt_of_precheck e (hev e h)
    · subst h; rfl
  | some err =>
    refine ⟨by simp, ?_⟩
    intro e he
    simp at he
    rcases he with h | h
    · exact isPrompt_of_precheck e (hev e h)
    · subst h; rfl

/-- Witness of C6: the scenario `upgrade cluster1 v7.1.0 --precheck` with a catalog
that fails to load. -/
theorem plan_only_returns_precheck_result_witness :
    (RunE brokenCatalogEnv { precheckOnlyFlag := true } ["cluster1", "v7.1.0"]).1 =
      some ⟨"load upgrade metadata: invalid catalog"⟩ ∧
    ∀ e ∈ (RunE brokenCatalogEnv { precheckOnlyFlag := true } ["cluster1", "v7.1.0"]).2,
      e.isPrompt = false := by
  have h := plan_only_returns_precheck_result brokenCatalogEnv { precheckOnlyFlag := true }
    "cluster1" "v7.1.0" "v7.1.0" OutputFormat.OutputText (by decide) rfl rfl rfl rfl
  exact ⟨h.1.trans (by decide), h.2⟩

/-- In execute mode the result and the upgrade calls of the upgrade form are those
of the confirmation gate: the precheck contributes events only. -/
theorem runUpgrade_execute (env : Env) (f : Flags) (clusterName targetRaw version : String)
    (precheckFmt : OutputFormat)
    (hver : env.FmtVer targetRaw = .ok version)
    (hskip : f.withoutPrecheckFlag = false)
    (hplan : f.precheckOnlyFlag = false) :
    ((runUpgrade env f precheckFmt [clusterName, targetRaw]).1,
      upgradeCalls (runUpgrade env f precheckFmt [clusterName, targetRaw]).2) =
      executeOutcome env f clusterName version := by
  have hP := upgradeCalls_runParameterPrecheck env clusterName version precheckFmt
    f.precheckOutputFile
  have hA := upgradeCalls_ask env.streams
  simp only [runUpgrade, hver, hskip, hplan, executeOutcome]
  generalize runParameterPrecheck env clusterName version precheckFmt
    f.precheckOutputFile = P at hP
  rcases P with ⟨⟨rep, preErr⟩, t1⟩
  simp only at hP
  have ht2 : upgradeCalls (match preErr with
      | some err => [Event.log LogLevel.error ("parameter precheck failed: " ++ err.msg)]
      | none => []) = [] := by cases preErr <;> rfl
  by_cases hconf : f.skipConfirm = true
  · simp [hconf, upgradeCalls_append, hP, ht2, upgradeCalls_upgrade, upgradeCalls_nil]
  · generalize AskForUserConfirmation env.streams = A at hA
    rcases A with ⟨⟨ans, askErr⟩, t3⟩
    simp only at hA
    cases askErr with
    | some e => simp [hconf, upgradeCalls_append, hP, ht2, hA]
    | none =>
      cases ans <;>
        simp [hconf, upgradeCalls_append, hP, ht2, hA, upgradeCalls_upgrade, upgradeCalls_log,
          upgradeCalls_nil]

/-- C7: in execute mode the outcome does not depend on the assessment: two
environments that agree on input parsing, on the active streams and on the
upgrade action give the same command result and the same calls of the upgrade
action, whatever their metadata store, catalog and rule engine do, in particular
when the assessment fails in one and succeeds in the other. -/
theorem assessment_failure_does_not_change_outcome (env₁ env₂ : Env) (f : Flags)
    (clusterName targetRaw : String)
    (hform : clusterName ≠ "precheck")
    (hparse : env₁.ParseOutputFormat = env₂.ParseOutputFormat)
    (hfmtver : env₁.FmtVer = env₂.FmtVer)
    (hstreams : env₁.streams = env₂.streams)
    (hupgrade : env₁.clusterUpgradeFunc = env₂.clusterUpgradeFunc)
    (hskip : f.withoutPrecheckFlag = false)
    (hplan : f.precheckOnlyFlag = false) :
    (RunE env₁ f [clusterName, targetRaw]).1 = (RunE env₂ f [clusterName, targetRaw]).1 ∧
    upgradeCalls (RunE env₁ f [clusterName, targetRaw]).2 =
      upgradeCalls (RunE env₂ f [clusterName, targetRaw]).2 := by
  have hhead : [clusterName, targetRaw].head? ≠ some "precheck" := by simpa using hform
  rw [RunE_upgradeForm env₁ f _ hhead, RunE_upgradeForm env₂ f _ hhead, hparse]
  cases hp : env₂.ParseOutputFormat f.precheckOutputFormat with
  | error err => exact ⟨rfl, rfl⟩
  | ok precheckFmt =>
    simp only
    cases hv : env₂.FmtVer targetRaw with
    | error err =>
      have hv₁ : env₁.FmtVer targetRaw = .error err := by rw [hfmtver]; exact hv
      simp [runUpgrade, hv, hv₁]
    | ok version =>
      have hv₁ : env₁.FmtVer targetRaw = .ok version := by rw [hfmtver]; exact hv
      have h₁ := runUpgrade_execute env₁ f clusterName targetRaw version precheckFmt hv₁ hskip hplan
      have h₂ := runUpgrade_execute env₂ f clusterName targetRaw version precheckFmt hv hskip hplan
      have hout : executeOutcome env₁ f clusterName version =
          executeOutcome env₂ f clusterName version := by
        simp [executeOutcome, hstreams, hupgrade]
      rw [hout, ← h₂] at h₁
      exact ⟨(Prod.mk.inj h₁).1, (Prod.mk.inj h₁).2⟩

/-- Witness of C7: a failing catalog against a working one, with skip-confirmation
set: the assessment fails in the first run only, and both runs succeed with the
same single call of the upgrade action. -/
theorem assessment_failure_does_not_change_outcome_witness :
    (Run brokenCatalogEnv ⟨"v6.5.0", "v7.1.0"⟩).2 ≠ none ∧
    (Run sampleEnv ⟨"v6.5.0", "v7.1.0"⟩).2 = none ∧
    (RunE brokenCatalogEnv { skipConfirm := true } ["cluster1", "v7.1.0"]).1 =
      (RunE sampleEnv { skipConfirm := true } ["cluster1", "v7.1.0"]).1 ∧
    upgradeCalls (RunE brokenCatalogEnv { skipConfirm := true } ["cluster1", "v7.1.0"]).2 =
      upgradeCalls (RunE sampleEnv { skipConfirm := true } ["cluster1", "v7.1.0"]).2 :=
  ⟨by decide, by decide,
   assessment_failure_does_not_change_outcome brokenCatalogEnv sampleEnv { skipConfirm := true }
    "cluster1" "v7.1.0" (by decide) rfl rfl rfl rfl rfl rfl⟩

/-- A failed write of the report file, after a successful assessment and rendering,
is the error returned by `runParameterPrecheck`. -/
theorem runParameterPrecheck_write_failure (env : Env) (clusterName version path : String)
    (format : OutputFormat) (report : RiskReport) (payload : String) (werr : GoError)
    (hpath : path ≠ "")
    (hrun : Run env ⟨lookupSourceVersion env clusterName, version⟩ = (some report, none))
    (hrender : env.RenderReport report format = .ok payload)
    (hwrite : env.WriteFile path payload 0o644 = some werr) :
    (runParameterPrecheck env clusterName version format path).1.2 = some werr := by
  rw [runParameterPrecheck_result, hrun]
  simp [outputPrecheckReport, hpath, hrender, hwrite]

/-- C8, counterexample: in execute mode with skip-confirmation set, an output file
path given, a successful assessment and a failing file write, the command
returns nil and upgrades. -/
theorem report_write_failure_ignored_in_execute_mode :
    (Run readOnlyDiskEnv ⟨"v6.5.0", "v7.1.0"⟩).2 = none ∧
    readOnlyDiskEnv.WriteFile "report.md" "report" 0o644 = some ⟨"permission denied"⟩ ∧
    Event.writeFile "report.md" "report" 0o644 ∈
      (RunE readOnlyDiskEnv
        { precheckOutputFormat := "md", precheckOutputFile := "report.md", skipConfirm := true }
        ["cluster1", "v7.1.0"]).2 ∧
    (RunE readOnlyDiskEnv
      { precheckOutputFormat := "md", precheckOutputFile := "report.md", skipConfirm := true }
      ["cluster1", "v7.1.0"]).1 = none ∧
    (upgradeCalls (RunE readOnlyDiskEnv
      { precheckOutputFormat := "md", precheckOutputFile := "report.md", skipConfirm := true }
      ["cluster1", "v7.1.0"]).2).length = 1 := by
  decide

/-- C8, amended: when an output file path is given, the assessment succeeds and the
write of the rendered payload to that path fails, the command returns the write
error in the standalone precheck form and in plan-only mode; in execute mode
the failure does not reach the result, which is that of the confirmation gate. -/
theorem report_write_failure_fatal_outside_execute_mode (env : Env) (f : Flags)
    (clusterName targetRaw version : String) (precheckFmt : OutputFormat)
    (report : RiskReport) (payload : String) (werr : GoError)
    (hfmt : env.ParseOutputFormat f.precheckOutputFormat = .ok precheckFmt)
    (hver : env.FmtVer targetRaw = .ok version)
    (hpath : f.precheckOutputFile ≠ "")
    (hrun : Run env ⟨lookupSourceVersion env clusterName, version⟩ = (some report, none))
    (hrender : env.RenderReport report precheckFmt = .ok payload)
    (hwrite : env.WriteFile f.precheckOutputFile payload 0o644 = some werr) :
    (RunE env f ["precheck", clusterName, targetRaw]).1 = some werr ∧
    (clusterName ≠ "precheck" → f.withoutPrecheckFlag = false → f.precheckOnlyFlag = true →
      (RunE env f [clusterName, targetRaw]).1 = some werr) ∧
    (clusterName ≠ "precheck" → f.withoutPrecheckFlag = false → f.precheckOnlyFlag = false →
      (RunE env f [clusterName, targetRaw]).1 = (executeOutcome env f clusterName version).1) := by
  have hpre := runParameterPrecheck_write_failure env clusterName version f.precheckOutputFile
    precheckFmt report payload werr hpath hrun hrender hwrite
  refine ⟨?_, ?_, ?_⟩
  · rw [RunE_standalone env f ["precheck", clusterName, targetRaw] rfl]
    simp only [hfmt, runStandalone, hver]
    generalize runParameterPrecheck env clusterName version precheckFmt
      f.precheckOutputFile = P at hpre
    rcases P with ⟨⟨rep, preErr⟩, t1⟩
    simp only at hpre
    subst hpre
    rfl
  · intro hform hskip hplan
    have hhead : [clusterName, targetRaw].head? ≠ some "precheck" := by simpa using hform
    rw [RunE_upgradeForm env f _ hhead]
    simp only [hfmt, runUpgrade, hver, hskip, hplan]
    generalize runParameterPrecheck env clusterName version precheckFmt
      f.precheckOutputFile = P at hpre
    rcases P with ⟨⟨rep, preErr⟩, t1⟩
    simp only at hpre
    subst hpre
    simp
  · intro hform hskip hplan
    have hhead : [clusterName, targetRaw].head? ≠ some "precheck" := by simpa using hform
    rw [RunE_upgradeForm env f _ hhead]
    simp only [hfmt]
    exact (Prod.mk.inj (runUpgrade_execute env f clusterName targetRaw version precheckFmt hver
      hskip hplan)).1 ▸ rfl

/-- Witness of C8 as amended: a file system that refuses the write, in the
standalone form, in plan-only mode and in execute mode with skip-confirmation,
where the upgrade action succeeds. -/
theorem report_write_failure_fatal_outside_execute_mode_witness :
    (RunE readOnlyDiskEnv
      { precheckOutputFormat := "md", precheckOutputFile := "report.md", precheckOnlyFlag := true }
      ["precheck", "cluster1", "v7.1.0"]).1 = some ⟨"permission denied"⟩ ∧
    (RunE readOnlyDiskEnv
      { precheckOutputFormat := "md", precheckOutputFile := "report.md", precheckOnlyFlag := true }
      ["cluster1", "v7.1.0"]).1 = some ⟨"permission denied"⟩ ∧
    (RunE readOnlyDiskEnv
      { precheckOutputFormat := "md", precheckOutputFile := "report.md", skipConfirm := true }
      ["cluster1", "v7.1.0"]).1 = none := by
  have h₁ := report_write_failure_fatal_outside_execute_mode readOnlyDiskEnv
    { precheckOutputFormat := "md", precheckOutputFile := "report.md", precheckOnlyFlag := true }
    "cluster1" "v7.1.0" "v7.1.0" OutputFormat.OutputMarkdown
    { SourceVersion := "v6.5.0", TargetVersion := "v7.1.0" } "report" ⟨"permission denied"⟩
    rfl rfl (by decide) (by decide) rfl rfl
  have h₂ := report_write_failure_fatal_outside_execute_mode readOnlyDiskEnv
    { precheckOutputFormat := "md", precheckOutputFile := "report.md", skipConfirm := true }
    "cluster1" "v7.1.0" "v7.1.0" OutputFormat.OutputMarkdown
    { SourceVersion := "v6.5.0", TargetVersion := "v7.1.0" } "report" ⟨"permission denied"⟩
    rfl rfl (by decide) (by decide) rfl rfl
  exact ⟨h₁.1, h₁.2.1 (by decide) rfl rfl, (h₂.2.2 (by decide) rfl rfl).trans (by decide)⟩

/-- C9: input errors are returned before anything else happens: when the output
format does not parse, every argument list and flag setting yields that error
and an empty trace; when the format parses and the target version does not
format, both the three-argument precheck form and the two-argument upgrade form
yield that error and an empty trace, so no metadata lookup, assessment, prompt
or upgrade takes place. -/
theorem input_errors_returned_immediately (env : Env) (f : Flags) :
    (∀ (err : GoError) (args : List String),
      env.ParseOutputFormat f.precheckOutputFormat = .error err →
        RunE env f args = (some err, [])) ∧
    (∀ (precheckFmt : OutputFormat) (clusterName targetRaw : String) (err : GoError),
      env.ParseOutputFormat f.precheckOutputFormat = .ok precheckFmt →
      env.FmtVer targetRaw = .error err →
        RunE env f ["precheck", clusterName, targetRaw] = (some err, []) ∧
        (clusterName ≠ "precheck" → RunE env f [clusterName, targetRaw] = (some err, []))) := by
  constructor
  · intro err args h
    simp [RunE, h]
  · intro precheckFmt clusterName targetRaw err hfmt hver
    constructor
    · rw [RunE_standalone env f ["precheck", clusterName, targetRaw] rfl]
      simp [hfmt, runStandalone, hver]
    · intro hform
      have hhead : [clusterName, targetRaw].head? ≠ some "precheck" := by simpa using hform
      rw [RunE_upgradeForm env f _ hhead]
      simp [hfmt, runUpgrade, hver]

/-- Witness of C9: the unsupported format "json" with skip-assessment set, and the
unparsable version "latest" in the precheck form and in the upgrade form. -/
theorem input_errors_returned_immediately_witness :
    RunE sampleEnv { precheckOutputFormat := "json", withoutPrecheckFlag := true }
      ["cluster1", "v7.1.0"] = (some ⟨"unsupported output format"⟩, []) ∧
    RunE sampleEnv {} ["precheck", "cluster1", "latest"] =
      (some ⟨"not a valid SemVer string"⟩, []) ∧
    RunE sampleEnv {} ["cluster1", "latest"] = (some ⟨"not a valid SemVer string"⟩, []) :=
  ⟨(input_errors_returned_immediately sampleEnv
      { precheckOutputFormat := "json", withoutPrecheckFlag := true }).1
      ⟨"unsupported output format"⟩ ["cluster1", "v7.1.0"] rfl,
   ((input_errors_returned_immediately sampleEnv {}).2 OutputFormat.OutputText "cluster1"
      "latest" ⟨"not a valid SemVer string"⟩ rfl rfl).1,
   ((input_errors_returned_immediately sampleEnv {}).2 OutputFormat.OutputText "cluster1"
      "latest" ⟨"not a valid SemVer string"⟩ rfl rfl).2 (by decide)⟩

/-! ## The confirmation prompt -/

theorem scanLine_line (delim : Char) (line rest : List Char) (h : delim ∉ line) :
    scanLine delim (line ++ delim :: rest) = some (line ++ [delim]) := by
  induction line with
  | nil => simp [scanLine]
  | cons c cs ih =>
    have hc : c ≠ delim := fun hEq => h (by simp [hEq])
    have hcs : delim ∉ cs := fun hm => h (List.mem_cons_of_mem _ hm)
    simp [scanLine, hc, ih hcs]

theorem isSpace_toLowerRune (c : Char) : isSpace (toLowerRune c) = isSpace c := by
  have hc : c = Char.ofNat c.toNat := (Char.ofNat_toNat c).symm
  by_cases h1 : 65 ≤ c.toNat ∧ c.toNat ≤ 90
  · obtain ⟨hlo, hhi⟩ := h1
    generalize c.toNat = n at hc hlo hhi
    subst hc
    interval_cases n <;> decide
  · by_cases h2 : c.toNat = 0x130
    · rw [h2] at hc; subst hc; decide
    · by_cases h3 : c.toNat = 0x212A
      · rw [h3] at hc; subst hc; decide
      · simp [toLowerRune, h1, h2, h3]

theorem dropWhile_isSpace_map (cs : List Char) :
    (cs.map toLowerRune).dropWhile isSpace = (cs.dropWhile isSpace).map toLowerRune := by
  induction cs with
  | nil => rfl
  | cons c cs ih =>
    simp only [List.map_cons, List.dropWhile_cons, isSpace_toLowerRune]
    cases isSpace c <;> simp [ih]

theorem trimLeft_map (cs : List Char) :
    trimLeft (cs.map toLowerRune) = (trimLeft cs).map toLowerRune :=
  dropWhile_isSpace_map cs

theorem trimRight_map (cs : List Char) :
    trimRight (cs.map toLowerRune) = (trimRight cs).map toLowerRune := by
  simp [trimRight, ← List.map_reverse, dropWhile_isSpace_map]

/-- Lower-casing and trimming commute. -/
theorem TrimSpace_ToLower (s : String) : TrimSpace (ToLower s) = ToLower (TrimSpace s) := by
  simp [TrimSpace, ToLower, trimLeft_map, trimRight_map]

theorem trimRight_append_space (cs : List Char) (c : Char) (hc : isSpace c = true) :
    trimRight (cs ++ [c]) = trimRight cs := by
  simp [trimRight, List.dropWhile_cons, hc]

theorem trimLeft_append_space (cs : List Char) (c : Char) (hc : isSpace c = true) :
    trimRight (trimLeft (cs ++ [c])) = trimRight (trimLeft cs) := by
  induction cs with
  | nil => simp [trimLeft, trimRight, List.dropWhile_cons, hc]
  | cons d ds ih =>
    by_cases hd : isSpace d = true
    · simpa [trimLeft, List.dropWhile_cons, hd] using ih
    · have h1 : trimLeft (d :: ds ++ [c]) = (d :: ds) ++ [c] := by
        simp [trimLeft, List.dropWhile_cons, hd]
      have h2 : trimLeft (d :: ds) = d :: ds := by
        simp [trimLeft, List.dropWhile_cons, hd]
      rw [h1, h2, trimRight_append_space _ _ hc]

/-- The line delimiter is dropped by the trimming. -/
theorem TrimSpace_line (line : List Char) :
    TrimSpace ⟨line ++ [Char.ofNat 10]⟩ = TrimSpace ⟨line⟩ := by
  simp only [TrimSpace]
  rw [trimLeft_append_space line (Char.ofNat 10) (by decide)]

/-- C10: when the output is writable and the input begins with a line terminated
by a newline, `AskForUserConfirmation` returns no error, and returns true exactly
when the line, trimmed and lower-cased, is "y" or "yes"; the result is that of
the input reduced to this first line, so later content does not affect it. -/
theorem confirmation_reads_first_line (io : Streams) (line rest : List Char)
    (hline : Char.ofNat 10 ∉ line)
    (hout : io.stdOut.fail = none)
    (hin : io.stdIn.data = ⟨line ++ Char.ofNat 10 :: rest⟩) :
    (AskForUserConfirmation io).1.2 = none ∧
    ((AskForUserConfirmation io).1.1 = true ↔
      (ToLower (TrimSpace ⟨line⟩) = "y" ∨ ToLower (TrimSpace ⟨line⟩) = "yes")) ∧
    (AskForUserConfirmation io).1 =
      (AskForUserConfirmation
        { io with stdIn := { io.stdIn with data := ⟨line ++ [Char.ofNat 10]⟩ } }).1 := by
  have hscan := scanLine_line (Char.ofNat 10) line rest hline
  have hscan' := scanLine_line (Char.ofNat 10) line [] hline
  have hnorm : TrimSpace (ToLower ⟨line ++ [Char.ofNat 10]⟩) = ToLower (TrimSpace ⟨line⟩) := by
    rw [TrimSpace_ToLower, TrimSpace_line]
  simp only [AskForUserConfirmation, fprint, hout, ReadString, hin, hscan, hscan', hnorm]
  simp

/-- Witness of C10: the answer " YES " followed by further input. -/
theorem confirmation_reads_first_line_witness :
    (AskForUserConfirmation
      { stdOut := { chan := OutChan.writer 0, fail := none },
        stdIn := { data := " YES \nno\n", fail := ioEOF } }).1 = (true, none) := by
  have h := confirmation_reads_first_line
    { stdOut := { chan := OutChan.writer 0, fail := none },
      stdIn := { data := " YES \nno\n", fail := ioEOF } }
    " YES ".data "no\n".data (by decide) rfl rfl
  exact Prod.ext (h.2.1.mpr (by decide)) h.1

/-! ## Read failures of the confirmation prompt -/

theorem scanLine_none (delim : Char) (cs : List Char) (h : delim ∉ cs) :
    scanLine delim cs = none := by
  induction cs with
  | nil => rfl
  | cons c cs ih =>
    have hc : c ≠ delim := fun hEq => h (by simp [hEq])
    have hcs : delim ∉ cs := fun hm => h (List.mem_cons_of_mem _ hm)
    simp [scanLine, hc, ih hcs]

/-- C11: when the input holds no newline before it ends (empty input and the
unterminated text "y" included), `AskForUserConfirmation` returns a non-nil error
and no affirmative answer, that error being the one of the reader when the output
is writable; in execute mode with skip-confirmation unset the command returns
the error of the prompt and the upgrade action is not called. -/
theorem read_failure_is_an_error (env : Env) (f : Flags)
    (clusterName targetRaw version : String) (precheckFmt : OutputFormat)
    (hinput : Char.ofNat 10 ∉ env.streams.stdIn.data.data) :
    (AskForUserConfirmation env.streams).1.2 ≠ none ∧
    (AskForUserConfirmation env.streams).1.1 = false ∧
    (env.streams.stdOut.fail = none →
      (AskForUserConfirmation env.streams).1 = (false, some env.streams.stdIn.fail)) ∧
    (clusterName ≠ "precheck" →
      env.ParseOutputFormat f.precheckOutputFormat = .ok precheckFmt →
      env.FmtVer targetRaw = .ok version →
      f.withoutPrecheckFlag = false → f.precheckOnlyFlag = false → f.skipConfirm = false →
      (RunE env f [clusterName, targetRaw]).1 = (AskForUserConfirmation env.streams).1.2 ∧
      upgradeCalls (RunE env f [clusterName, targetRaw]).2 = []) := by
  have hscan := scanLine_none (Char.ofNat 10) _ hinput
  have hask : ∃ err, (AskForUserConfirmation env.streams).1 = (false, some err) := by
    unfold AskForUserConfirmation fprint ReadString
    cases env.streams.stdOut.fail with
    | none => exact ⟨env.streams.stdIn.fail, by simp [hscan]⟩
    | some werr => exact ⟨werr, rfl⟩
  obtain ⟨err, herr⟩ := hask
  refine ⟨by simp [herr], by simp [herr], ?_, ?_⟩
  · intro hout
    simp [AskForUserConfirmation, fprint, ReadString, hout, hscan]
  · intro hform hfmt hver hskip hplan hconf
    have hhead : [clusterName, targetRaw].head? ≠ some "precheck" := by simpa using hform
    have hexec := runUpgrade_execute env f clusterName targetRaw version precheckFmt hver
      hskip hplan
    rw [RunE_upgradeForm env f _ hhead]
    simp only [hfmt]
    simp only [executeOutcome, hconf, herr] at hexec
    simp only [herr]
    exact ⟨(Prod.mk.inj hexec).1, (Prod.mk.inj hexec).2⟩

/-- Witness of C11: the unterminated answer "y" in execute mode. -/
theorem read_failure_is_an_error_witness :
    (AskForUserConfirmation
      { stdOut := { chan := OutChan.writer 0, fail := none },
        stdIn := { data := "y", fail := ioEOF } }).1 = (false, some ioEOF) ∧
    (RunE { sampleEnv with streams :=
        { stdOut := { chan := OutChan.writer 0, fail := none },
          stdIn := { data := "y", fail := ioEOF } } } {} ["cluster1", "v7.1.0"]).1 = some ioEOF ∧
    upgradeCalls (RunE { sampleEnv with streams :=
        { stdOut := { chan := OutChan.writer 0, fail := none },
          stdIn := { data := "y", fail := ioEOF } } } {} ["cluster1", "v7.1.0"]).2 = [] := by
  have h := read_failure_is_an_error
    { sampleEnv with streams :=
        { stdOut := { chan := OutChan.writer 0, fail := none },
          stdIn := { data := "y", fail := ioEOF } } } {} "cluster1" "v7.1.0" "v7.1.0"
    OutputFormat.OutputText (by decide)
  have hc := h.2.2.2 (by decide) rfl rfl rfl rfl rfl
  exact ⟨h.2.2.1 rfl, hc.1.trans (by decide), hc.2⟩

/-! ## The risk report -/

/-- C12: for every report, `Summary` returns the lengths of the three sequences
and their sum as total; the counters are computed from the sequences, the report
holding no counter of its own. -/
theorem summary_counts_sequences (r : RiskReport) :
    r.Summary.High = r.High.length ∧
    r.Summary.Medium = r.Medium.length ∧
    r.Summary.Low = r.Low.length ∧
    r.Summary.Total = r.High.length + r.Medium.length + r.Low.length ∧
    r.Summary =
      (RiskReport.Summary { High := r.High, Medium := r.Medium, Low := r.Low }) :=
  ⟨rfl, rfl, rfl, rfl, rfl⟩

theorem TrimSpace_empty : TrimSpace "" = "" := by decide

theorem Join_nil (sep : String) : Join [] sep = "" := rfl

/-- The fields of a normalized item in closed form. -/
theorem convertReportItem_eq (item : ReportItem) :
    convertReportItem item =
      { Level := mapSeverity item.Severity
        Category := mapRuleCategory item.Rule
        Component :=
          if TrimSpace (metaString item.Metadata "component") ≠ "" then
            TrimSpace (metaString item.Metadata "component")
          else inferComponent item.Rule
        Parameter := TrimSpace (metaString item.Metadata "target")
        Scope :=
          if TrimSpace (metaString item.Metadata "scope") = "" ∧
              item.Rule = "core.forced-global-sysvars" then "Global"
          else TrimSpace (metaString item.Metadata "scope")
        Current := ""
        NewDefault := TrimSpace (metaString item.Metadata "default_value")
        Impact := TrimSpace item.Message
        Suggestion := Join item.Suggestions "; "
        Reason :=
          if TrimSpace (metaString item.Metadata "reason") ≠ "" then
            TrimSpace (metaString item.Metadata "reason")
          else TrimSpace (metaString item.Metadata "summary")
        Comments :=
          if Join item.Details "; " ≠ "" then Join item.Details "; "
          else TrimSpace (metaString item.Metadata "details") } := by
  rcases item with ⟨rule, sev, msg, sugg, det, md⟩
  by_cases hrule : rule = "core.forced-global-sysvars"
  all_goals
    cases md with
    | stringMap entries =>
      by_cases hreason : TrimSpace (stringFromMeta entries "reason") = "" <;>
      by_cases hcomp : TrimSpace (stringFromMeta entries "component") = "" <;>
      by_cases hscope : TrimSpace (stringFromMeta entries "scope") = "" <;>
      cases sugg <;> cases det <;>
      first
        | (rename_i d ds
           by_cases hjoin : Join (d :: ds) "; " = "" <;>
           simp [convertReportItem, metaString, trimString, inferComponent, Join_nil, hrule,
             hreason, hcomp, hscope, hjoin])
        | simp [convertReportItem, metaString, trimString, inferComponent, Join_nil, hrule,
            hreason, hcomp, hscope]
    | nil =>
      cases sugg <;> cases det <;>
        simp [convertReportItem, metaString, inferComponent, Join_nil, TrimSpace_empty, hrule] <;>
        split_ifs with hjoin <;> simp [hjoin]
    | other =>
      cases sugg <;> cases det <;>
        simp [convertReportItem, metaString, inferComponent, Join_nil, TrimSpace_empty, hrule] <;>
        split_ifs with hjoin <;> simp [hjoin]

/-! ## The normalizer: levels and buckets -/

theorem convertReportItem_Level (item : ReportItem) :
    (convertReportItem item).Level = mapSeverity item.Severity := by
  rw [convertReportItem_eq]

theorem mapSeverity_cases (severity : Severity) :
    mapSeverity severity = RiskHigh ∨ mapSeverity severity = RiskMedium ∨
      mapSeverity severity = RiskLow := by
  cases severity <;> simp [mapSeverity]

/-- The loop of `convertReport` on already normalized items: each sequence grows
by the items the switch sends to it, in order. -/
theorem foldl_appendRisk (risks : List RiskItem) (acc : RiskReport) :
    risks.foldl appendRisk acc =
      { SourceVersion := acc.SourceVersion, TargetVersion := acc.TargetVersion,
        High := acc.High ++ risks.filter (fun it => it.Level = RiskHigh),
        Medium := acc.Medium ++ risks.filter (fun it => it.Level = RiskMedium),
        Low := acc.Low ++
          risks.filter (fun it => ¬ it.Level = RiskHigh ∧ ¬ it.Level = RiskMedium) } := by
  induction risks generalizing acc with
  | nil => simp
  | cons it rest ih =>
    rw [List.foldl_cons, ih]
    by_cases hh : it.Level = RiskHigh
    · have hm : ¬ it.Level = RiskMedium := by rw [hh]; decide
      simp [appendRisk, hh, List.filter_cons]
      rw [hh] at hm
      simp [hm]
    · by_cases hm : it.Level = RiskMedium
      · simp [appendRisk, hh, hm, List.filter_cons]
        rw [hm] at hh
        simp [hh]
      · simp [appendRisk, hh, hm, List.filter_cons]

theorem convertReport_eq (snapshot : Snapshot) (report : Report) :
    convertReport snapshot report =
      { SourceVersion := snapshot.SourceVersion, TargetVersion := snapshot.TargetVersion,
        High := (report.Items.map convertReportItem).filter (fun it => it.Level = RiskHigh),
        Medium := (report.Items.map convertReportItem).filter (fun it => it.Level = RiskMedium),
        Low := (report.Items.map convertReportItem).filter
          (fun it => ¬ it.Level = RiskHigh ∧ ¬ it.Level = RiskMedium) } := by
  unfold convertReport
  rw [← List.foldl_map, foldl_appendRisk]
  simp

theorem mem_filter_level (risks : List RiskItem) (level : RiskLevel) :
    ∀ it ∈ risks.filter (fun it => it.Level = level), it.Level = level := by
  intro it hit
  simpa using (List.mem_filter.mp hit).2

theorem low_filter_eq (items : List ReportItem) :
    (items.map convertReportItem).filter
        (fun it => ¬ it.Level = RiskHigh ∧ ¬ it.Level = RiskMedium) =
      (items.map convertReportItem).filter (fun it => it.Level = RiskLow) := by
  apply List.filter_congr
  intro it hit
  obtain ⟨item, -, rfl⟩ := List.mem_map.mp hit
  rw [convertReportItem_Level]
  rcases mapSeverity_cases item.Severity with h | h | h <;> rw [h] <;> decide

/-- C13: for every snapshot and every sequence of raw findings the report built by
`convertReport` satisfies the bucket invariant: the items of High have level
High, those of Medium level Medium and those of Low level Low. -/
theorem convertReport_bucket_invariant (snapshot : Snapshot) (report : Report) :
    bucketInvariant (convertReport snapshot report) := by
  rw [convertReport_eq, low_filter_eq]
  exact ⟨mem_filter_level _ _, mem_filter_level _ _, mem_filter_level _ _⟩

/-- C15: the severity mapping: Blocker and Error give High, Warning gives Medium,
and every other value (Info, the empty or any unrecognized value) gives Low; the
level of a normalized item is the image of the severity of the finding, whatever
its other fields. -/
theorem severity_mapping_fixed :
    mapSeverity Severity.SeverityBlocker = RiskHigh ∧
    mapSeverity Severity.SeverityError = RiskHigh ∧
    mapSeverity Severity.SeverityWarning = RiskMedium ∧
    (∀ severity : Severity, severity ≠ Severity.SeverityBlocker →
      severity ≠ Severity.SeverityError → severity ≠ Severity.SeverityWarning →
      mapSeverity severity = RiskLow) ∧
    (∀ item : ReportItem, (convertReportItem item).Level = mapSeverity item.Severity) := by
  refine ⟨rfl, rfl, rfl, ?_, convertReportItem_Level⟩
  intro severity h1 h2 h3
  cases severity <;> simp_all [mapSeverity]

/-- Witness of C15: the severities Info, empty and "fatal" are mapped to Low. -/
theorem severity_mapping_fixed_witness :
    mapSeverity Severity.SeverityInfo = RiskLow ∧
    mapSeverity (Severity.unrecognized "") = RiskLow ∧
    mapSeverity (Severity.unrecognized "fatal") = RiskLow :=
  ⟨severity_mapping_fixed.2.2.2.1 _ (by decide) (by decide) (by decide),
   severity_mapping_fixed.2.2.2.1 _ (by decide) (by decide) (by decide),
   severity_mapping_fixed.2.2.2.1 _ (by decide) (by decide) (by decide)⟩

/-- C16: the category of a normalized item is "Upgrade Path Validation" for the
version-order rule, "Forced Upgrade Logic" for the forced-global-system-variable
rule, and the trimmed rule identifier for every other identifier; the lower-cased
category of the forced rule starts with "forced". -/
theorem category_mapping (item : ReportItem) :
    (item.Rule = "core.target-version-order" →
      (convertReportItem item).Category = "Upgrade Path Validation") ∧
    (item.Rule = "core.forced-global-sysvars" →
      (convertReportItem item).Category = "Forced Upgrade Logic") ∧
    (item.Rule ≠ "core.target-version-order" → item.Rule ≠ "core.forced-global-sysvars" →
      (convertReportItem item).Category = TrimSpace item.Rule) ∧
    "forced".data <+: (ToLower (mapRuleCategory "core.forced-global-sysvars")).data := by
  rw [convertReportItem_eq]
  refine ⟨?_, ?_, ?_, ⟨" upgrade logic".data, by decide⟩⟩
  · intro h; simp only [h]; decide
  · intro h; simp only [h]; decide
  · intro h1 h2; simp [mapRuleCategory, h1, h2]

/-- Witness of C16: the two named rules and an identifier with outer blanks. -/
theorem category_mapping_witness :
    (convertReportItem (plainFinding "core.target-version-order")).Category =
      "Upgrade Path Validation" ∧
    (convertReportItem (plainFinding "core.forced-global-sysvars")).Category =
      "Forced Upgrade Logic" ∧
    (convertReportItem (plainFinding " custom.rule ")).Category = "custom.rule" :=
  ⟨(category_mapping (plainFinding "core.target-version-order")).1 rfl,
   (category_mapping (plainFinding "core.forced-global-sysvars")).2.1 rfl,
   ((category_mapping (plainFinding " custom.rule ")).2.2.1 (by decide) (by decide)).trans
     (by decide)⟩

/-! ## The normalizer: trimming -/

theorem head?_of_initial (xs ys : List Char) (c : Char) (hp : xs <+: ys)
    (hx : xs.head? = some c) : ys.head? = some c := by
  obtain ⟨t, rfl⟩ := hp
  cases xs with
  | nil => simp at hx
  | cons a as => simpa using hx

theorem trimRight_initial (cs : List Char) : trimRight cs <+: cs := by
  unfold trimRight
  have h : List.dropWhile isSpace cs.reverse <:+ cs.reverse := List.dropWhile_suffix _
  have h' := List.reverse_prefix.mpr h
  simpa using h'

theorem isTrimmed_TrimSpace (s : String) : isTrimmed (TrimSpace s) = true := by
  unfold isTrimmed TrimSpace
  simp only
  cases hh : (trimRight (trimLeft s.data)).head? with
  | none => rfl
  | some first =>
    cases hl : (trimRight (trimLeft s.data)).getLast? with
    | none => rfl
    | some last =>
      have hfirst : isSpace first = false := by
        have h1 := head?_of_initial _ _ first (trimRight_initial (trimLeft s.data)) hh
        have h2 := List.head?_dropWhile_not isSpace s.data
        unfold trimLeft at h1
        rw [h1] at h2
        simpa using h2
      have hlast : isSpace last = false := by
        unfold trimRight at hl
        rw [List.getLast?_reverse] at hl
        have h2 := List.head?_dropWhile_not isSpace (trimLeft s.data).reverse
        rw [hl] at h2
        simpa using h2
      simp [hfirst, hlast]

/-- C17, counterexample: a suggestion string and a detail string with outer blanks
reach the Suggestion and Comments fields untrimmed. -/
theorem joined_fields_not_trimmed :
    (convertReportItem paddedFinding).Suggestion = " retry " ∧
    isTrimmed (convertReportItem paddedFinding).Suggestion = false ∧
    (convertReportItem paddedFinding).Comments = " note " ∧
    isTrimmed (convertReportItem paddedFinding).Comments = false := by
  decide

/-- C17, amended: for every raw finding the fields Category, Component, Parameter,
Scope, Current, NewDefault, Impact and Reason of the normalized item have no
leading or trailing white space, and so has Comments when it does not come from
the detail strings; Suggestion is the join of the suggestion strings and Comments
the non-empty join of the detail strings, both as joined. -/
theorem extracted_fields_trimmed (item : ReportItem) :
    isTrimmed (convertReportItem item).Category = true ∧
    isTrimmed (convertReportItem item).Component = true ∧
    isTrimmed (convertReportItem item).Parameter = true ∧
    isTrimmed (convertReportItem item).Scope = true ∧
    isTrimmed (convertReportItem item).Current = true ∧
    isTrimmed (convertReportItem item).NewDefault = true ∧
    isTrimmed (convertReportItem item).Impact = true ∧
    isTrimmed (convertReportItem item).Reason = true ∧
    (Join item.Details "; " = "" → isTrimmed (convertReportItem item).Comments = true) ∧
    (Join item.Details "; " ≠ "" →
      (convertReportItem item).Comments = Join item.Details "; ") ∧
    (convertReportItem item).Suggestion = Join item.Suggestions "; " := by
  have ht := isTrimmed_TrimSpace
  rw [convertReportItem_eq]
  simp only
  refine ⟨?_, ?_, ht _, ?_, by decide, ht _, ht _, ?_, ?_, ?_, trivial⟩
  · unfold mapRuleCategory
    split_ifs
    · decide
    · decide
    · exact ht _
  · unfold inferComponent
    split_ifs
    · exact ht _
    · decide
    · decide
  · split_ifs
    · decide
    · exact ht _
  · split_ifs <;> exact ht _
  · intro hjoin
    simp only [hjoin, ne_eq, not_true_eq_false, if_false]
    exact ht _
  · intro hjoin
    simp [hjoin]

/-- Witness of C17 as amended: the finding with a blank scope and padded metadata
values. -/
theorem extracted_fields_trimmed_witness :
    isTrimmed (convertReportItem forcedSysvarFinding).Comments = true ∧
    (convertReportItem paddedFinding).Comments = " note " ∧
    (convertReportItem twoDetailFinding).Suggestion = "first; second" :=
  ⟨(extracted_fields_trimmed forcedSysvarFinding).2.2.2.2.2.2.2.2.1 (by decide),
   ((extracted_fields_trimmed paddedFinding).2.2.2.2.2.2.2.2.2.1 (by decide)).trans (by decide),
   (extracted_fields_trimmed twoDetailFinding).2.2.2.2.2.2.2.2.2.2.trans (by decide)⟩

/-! ## The normalizer: metadata -/

theorem stringFromMeta_absent (entries : List (String × MetaValue)) (key : String)
    (h : entries.lookup key = none) : stringFromMeta entries key = "" := by
  simp [stringFromMeta, h]

/-- On a finding whose metadata values render, missing metadata degrades to empty
fields: when the metadata is nil, not a string-keyed map, or a map without the
keys "target", "default_value", "reason" and "summary", the fields Parameter,
NewDefault and Reason are empty; and Level, Category, Impact and Suggestion are
the same for every metadata value put in place of the one of the finding. The
panic of a Stringer in the bag is the subject of `convertReportItemOrPanic`. -/
theorem malformed_metadata_degrades_to_empty (item : ReportItem) :
    ((item.Metadata = Metadata.nil ∨ item.Metadata = Metadata.other ∨
        ∃ entries, item.Metadata = Metadata.stringMap entries ∧
          entries.lookup "target" = none ∧ entries.lookup "default_value" = none ∧
          entries.lookup "reason" = none ∧ entries.lookup "summary" = none) →
      (convertReportItem item).Parameter = "" ∧
      (convertReportItem item).NewDefault = "" ∧
      (convertReportItem item).Reason = "") ∧
    (∀ metadata : Metadata,
      (convertReportItem { item with Metadata := metadata }).Level =
        (convertReportItem item).Level ∧
      (convertReportItem { item with Metadata := metadata }).Category =
        (convertReportItem item).Category ∧
      (convertReportItem { item with Metadata := metadata }).Impact =
        (convertReportItem item).Impact ∧
      (convertReportItem { item with Metadata := metadata }).Suggestion =
        (convertReportItem item).Suggestion) := by
  constructor
  · intro h
    rw [convertReportItem_eq]
    rcases h with h | h | ⟨entries, h, h1, h2, h3, h4⟩
    · simp [h, metaString, TrimSpace_empty]
    · simp [h, metaString, TrimSpace_empty]
    · simp [h, metaString, stringFromMeta_absent, h1, h2, h3, h4, TrimSpace_empty]
  · intro metadata
    rw [convertReportItem_eq, convertReportItem_eq]
    exact ⟨rfl, rfl, rfl, rfl⟩

/-- An instance of the degradation to empty fields: a finding without metadata. -/
theorem malformed_metadata_degrades_to_empty_witness :
    (convertReportItem (plainFinding "custom.rule")).Parameter = "" ∧
    (convertReportItem (plainFinding "custom.rule")).NewDefault = "" ∧
    (convertReportItem (plainFinding "custom.rule")).Reason = "" :=
  (malformed_metadata_degrades_to_empty (plainFinding "custom.rule")).1 (Or.inl rfl)

/-- C19: the scope of a normalized item is the trimmed "scope" value of the
metadata when that is not blank, and otherwise "Global" for the
forced-global-system-variable rule and empty for every other rule; its component
is the trimmed "component" value when that is not blank, and otherwise "TiDB" for
the forced-global-system-variable rule and empty for every other rule. A key
that is absent, like absent metadata, reads as the empty string. -/
theorem per_rule_defaults (item : ReportItem) :
    (convertReportItem item).Scope =
      (if TrimSpace (metaString item.Metadata "scope") ≠ "" then
        TrimSpace (metaString item.Metadata "scope")
      else if item.Rule = "core.forced-global-sysvars" then "Global" else "") ∧
    (convertReportItem item).Component =
      (if TrimSpace (metaString item.Metadata "component") ≠ "" then
        TrimSpace (metaString item.Metadata "component")
      else if item.Rule = "core.forced-global-sysvars" then "TiDB" else "") ∧
    (∀ key : String, metaString Metadata.nil key = "" ∧ metaString Metadata.other key = "" ∧
      ∀ entries : List (String × MetaValue), entries.lookup key = none →
        metaString (Metadata.stringMap entries) key = "") := by
  rw [convertReportItem_eq]
  refine ⟨?_, ?_, ?_⟩
  · simp only
    by_cases hs : TrimSpace (metaString item.Metadata "scope") = "" <;>
      by_cases hr : item.Rule = "core.forced-global-sysvars" <;> simp [hs, hr]
  · simp only [inferComponent]
  · intro key
    exact ⟨rfl, rfl, fun entries h => stringFromMeta_absent entries key h⟩

/-- Witness of C19: the forced rule with a blank scope and no component, another
rule without metadata, and the forced rule with a scope and a component given
by the metadata. -/
theorem per_rule_defaults_witness :
    (convertReportItem forcedSysvarFinding).Scope = "Global" ∧
    (convertReportItem forcedSysvarFinding).Component = "TiDB" ∧
    (convertReportItem (plainFinding "custom.rule")).Scope = "" ∧
    (convertReportItem (plainFinding "custom.rule")).Component = "" ∧
    (convertReportItem sessionScopeFinding).Scope = "Session" ∧
    (convertReportItem sessionScopeFinding).Component = "TiKV" :=
  ⟨(per_rule_defaults forcedSysvarFinding).1.trans (by decide),
   (per_rule_defaults forcedSysvarFinding).2.1.trans (by decide),
   (per_rule_defaults (plainFinding "custom.rule")).1.trans (by decide),
   (per_rule_defaults (plainFinding "custom.rule")).2.1.trans (by decide),
   (per_rule_defaults sessionScopeFinding).1.trans (by decide),
   (per_rule_defaults sessionScopeFinding).2.1.trans (by decide)⟩

/-- C20: the comments of a normalized item are the detail strings joined with "; "
when that join is not empty, and otherwise the trimmed "details" value of the
metadata, which is empty when the key or the metadata map is absent; when the
join is not empty the comments are the same for every metadata value. -/
theorem comments_fallback (item : ReportItem) :
    (convertReportItem item).Comments =
      (if Join item.Details "; " ≠ "" then Join item.Details "; "
       else TrimSpace (metaString item.Metadata "details")) ∧
    (Join item.Details "; " ≠ "" → ∀ metadata : Metadata,
      (convertReportItem { item with Metadata := metadata }).Comments =
        Join item.Details "; ") ∧
    TrimSpace (metaString Metadata.nil "details") = "" ∧
    TrimSpace (metaString Metadata.other "details") = "" ∧
    (∀ entries : List (String × MetaValue), entries.lookup "details" = none →
      TrimSpace (metaString (Metadata.stringMap entries) "details") = "") := by
  refine ⟨by rw [convertReportItem_eq], ?_, by decide, by decide, ?_⟩
  · intro hjoin metadata
    rw [convertReportItem_eq]
    simp [hjoin]
  · intro entries h
    simp [metaString, stringFromMeta_absent entries "details" h, TrimSpace_empty]

/-- Witness of C20: details that win over the metadata, an empty join that falls
back on it, and two detail strings joined. -/
theorem comments_fallback_witness :
    (convertReportItem paddedFinding).Comments = " note " ∧
    (convertReportItem forcedSysvarFinding).Comments = "see the release notes" ∧
    (convertReportItem twoDetailFinding).Comments = "one; two" :=
  ⟨((comments_fallback paddedFinding).2.1 (by decide) paddedFinding.Metadata).trans (by decide),
   (comments_fallback forcedSysvarFinding).1.trans (by decide),
   ((comments_fallback twoDetailFinding).2.1 (by decide) twoDetailFinding.Metadata).trans
     (by decide)⟩

/-- C21: for a finding with map metadata the reason of the normalized item is the
trimmed "reason" value when that is not empty, and the trimmed "summary" value
otherwise; a key that is absent or holds nil reads as the empty string, so that
the reason is empty when "reason" is blank and "summary" is absent. -/
theorem reason_fallback (item : ReportItem) (entries : List (String × MetaValue))
    (hmeta : item.Metadata = Metadata.stringMap entries) :
    (TrimSpace (stringFromMeta entries "reason") ≠ "" →
      (convertReportItem item).Reason = TrimSpace (stringFromMeta entries "reason")) ∧
    (TrimSpace (stringFromMeta entries "reason") = "" →
      (convertReportItem item).Reason = TrimSpace (stringFromMeta entries "summary")) ∧
    (∀ key : String, entries.lookup key = none ∨ entries.lookup key = some MetaValue.nil →
      TrimSpace (stringFromMeta entries key) = "") := by
  rw [convertReportItem_eq]
  simp only [hmeta, metaString]
  refine ⟨?_, ?_, ?_⟩
  · intro h; simp [h]
  · intro h; simp [h]
  · intro key h
    rcases h with h | h <;> simp [stringFromMeta, h, TrimSpace_empty]

/-- Witness of C21: a nil "reason" with a "summary" given by a stringer, and a
"reason" with outer blanks that wins over the "summary". -/
theorem reason_fallback_witness :
    (convertReportItem forcedSysvarFinding).Reason = "forced by the upgrade" ∧
    (convertReportItem sessionScopeFinding).Reason = "because" :=
  ⟨((reason_fallback forcedSysvarFinding _ rfl).2.1 (by decide)).trans (by decide),
   ((reason_fallback sessionScopeFinding _ rfl).1 (by decide)).trans (by decide)⟩

/-! ## The swappable streams -/

/-- C24: after `OverrideIO(out, in)` on the streams (o, i) the active output is out
when out is not nil and o otherwise, the active input is in when in is not nil
and i otherwise; the returned restore function sets the streams to (o, i),
whatever they have become, so that the call followed by its restore is the
identity on the streams. -/
theorem override_restores_previous_streams (s : Streams) (out : Option Writer)
    (inp : Option Reader) :
    ( OverrideIO s out inp).1.stdOut = out.getD s.stdOut ∧
    ( OverrideIO s out inp).1.stdIn = inp.getD s.stdIn ∧
    (∀ current : Streams, ( OverrideIO s out inp).2 current = s) ∧
    ( OverrideIO s out inp).2 ( OverrideIO s out inp).1 = s := by
  cases out <;> cases inp <;> exact ⟨rfl, rfl, fun _ => rfl, rfl⟩

/-- C25, at the failing input: once the output is redirected to a buffer by
`OverrideIO(buf, nil)`, a Markdown report without output file is written to
`os.Stdout` and the buffer receives nothing, whereas the Text report of the same
call goes to the buffer. -/
theorem rendered_payload_bypasses_redirection :
    ( OverrideIO processStreams (some bufferWriter) none).1.stdOut = bufferWriter ∧
    (outputPrecheckReport
      { sampleEnv with streams := ( OverrideIO processStreams (some bufferWriter) none).1 }
      {} OutputFormat.OutputMarkdown "").2 = [Event.write OutChan.osStdout "report\n"] ∧
    writtenTo bufferWriter.chan (outputPrecheckReport
      { sampleEnv with streams := ( OverrideIO processStreams (some bufferWriter) none).1 }
      {} OutputFormat.OutputMarkdown "").2 = [] ∧
    writtenTo OutChan.osStdout (outputPrecheckReport
      { sampleEnv with streams := ( OverrideIO processStreams (some bufferWriter) none).1 }
      {} OutputFormat.OutputText "").2 = [] ∧
    writtenTo bufferWriter.chan (outputPrecheckReport
      { sampleEnv with streams := ( OverrideIO processStreams (some bufferWriter) none).1 }
      {} OutputFormat.OutputText "").2 ≠ [] := by
  decide

/-! ## Findings and the upgrade decision -/

theorem runUpgrade_skip (env : Env) (f : Flags) (clusterName targetRaw version : String)
    (precheckFmt : OutputFormat)
    (hver : env.FmtVer targetRaw = .ok version)
    (hskip : f.withoutPrecheckFlag = true) :
    runUpgrade env f precheckFmt [clusterName, targetRaw] =
      (env.clusterUpgradeFunc (upgradeCall f clusterName version),
       [Event.log LogLevel.warn
          "Skipping parameter precheck (--without-precheck). Proceeding at your own risk.",
        Event.upgrade (upgradeCall f clusterName version)]) := by
  simp [runUpgrade, hver, hskip]

theorem runUpgrade_planOnly (env : Env) (f : Flags) (clusterName targetRaw version : String)
    (precheckFmt : OutputFormat)
    (hver : env.FmtVer targetRaw = .ok version)
    (hskip : f.withoutPrecheckFlag = false)
    (hplan : f.precheckOnlyFlag = true) :
    (runUpgrade env f precheckFmt [clusterName, targetRaw]).1 =
      (runParameterPrecheck env clusterName version precheckFmt f.precheckOutputFile).1.2 ∧
    upgradeCalls (runUpgrade env f precheckFmt [clusterName, targetRaw]).2 = [] := by
  constructor
  · simp only [runUpgrade, hver, hskip, hplan]
    generalize runParameterPrecheck env clusterName version precheckFmt
      f.precheckOutputFile = P
    rcases P with ⟨⟨rep, preErr⟩, t1⟩
    cases preErr <;> simp
  · rcases upgradeCalls_runUpgrade env f precheckFmt [clusterName, targetRaw] with h | ⟨-, hg⟩
    · exact h
    · simp [hskip, hplan] at hg

/-- C26: the outcome does not depend on the findings: for two environments that
agree on input parsing, on the active streams and on the upgrade action, and in
both of which `runParameterPrecheck` returns no error, the two-argument command
gives the same result and the same calls of the upgrade action under every flag
setting, whatever reports the two assessments produce. -/
theorem findings_do_not_change_outcome (env₁ env₂ : Env) (f : Flags)
    (clusterName targetRaw : String)
    (hform : clusterName ≠ "precheck")
    (hparse : env₁.ParseOutputFormat = env₂.ParseOutputFormat)
    (hfmtver : env₁.FmtVer = env₂.FmtVer)
    (hstreams : env₁.streams = env₂.streams)
    (hupgrade : env₁.clusterUpgradeFunc = env₂.clusterUpgradeFunc)
    (hpre₁ : ∀ version precheckFmt, env₁.FmtVer targetRaw = .ok version →
      env₁.ParseOutputFormat f.precheckOutputFormat = .ok precheckFmt →
      (runParameterPrecheck env₁ clusterName version precheckFmt f.precheckOutputFile).1.2 = none)
    (hpre₂ : ∀ version precheckFmt, env₂.FmtVer targetRaw = .ok version →
      env₂.ParseOutputFormat f.precheckOutputFormat = .ok precheckFmt →
      (runParameterPrecheck env₂ clusterName version precheckFmt f.precheckOutputFile).1.2 = none) :
    (RunE env₁ f [clusterName, targetRaw]).1 = (RunE env₂ f [clusterName, targetRaw]).1 ∧
    upgradeCalls (RunE env₁ f [clusterName, targetRaw]).2 =
      upgradeCalls (RunE env₂ f [clusterName, targetRaw]).2 := by
  have hhead : [clusterName, targetRaw].head? ≠ some "precheck" := by simpa using hform
  rw [RunE_upgradeForm env₁ f _ hhead, RunE_upgradeForm env₂ f _ hhead]
  rw [hparse] at hpre₁ ⊢
  cases hp : env₂.ParseOutputFormat f.precheckOutputFormat with
  | error err => exact ⟨rfl, rfl⟩
  | ok precheckFmt =>
    simp only
    cases hv : env₂.FmtVer targetRaw with
    | error err =>
      have hv₁ : env₁.FmtVer targetRaw = .error err := by rw [hfmtver]; exact hv
      simp [runUpgrade, hv, hv₁]
    | ok version =>
      have hv₁ : env₁.FmtVer targetRaw = .ok version := by rw [hfmtver]; exact hv
      by_cases hskip : f.withoutPrecheckFlag = true
      · rw [runUpgrade_skip env₁ f _ _ version _ hv₁ hskip,
          runUpgrade_skip env₂ f _ _ version _ hv hskip, hupgrade]
        exact ⟨rfl, rfl⟩
      · have hskip' : f.withoutPrecheckFlag = false := by simpa using hskip
        by_cases hplan : f.precheckOnlyFlag = true
        · have h₁ := runUpgrade_planOnly env₁ f clusterName targetRaw version precheckFmt hv₁
            hskip' hplan
          have h₂ := runUpgrade_planOnly env₂ f clusterName targetRaw version precheckFmt hv
            hskip' hplan
          rw [h₁.1, h₁.2, h₂.1, h₂.2, hpre₁ version precheckFmt hv₁ hp,
            hpre₂ version precheckFmt hv hp]
          exact ⟨rfl, rfl⟩
        · have hplan' : f.precheckOnlyFlag = false := by simpa using hplan
          have h₁ := runUpgrade_execute env₁ f clusterName targetRaw version precheckFmt hv₁
            hskip' hplan'
          have h₂ := runUpgrade_execute env₂ f clusterName targetRaw version precheckFmt hv
            hskip' hplan'
          have hout : executeOutcome env₁ f clusterName version =
              executeOutcome env₂ f clusterName version := by
            simp [executeOutcome, hstreams, hupgrade]
          rw [hout, ← h₂] at h₁
          exact ⟨(Prod.mk.inj h₁).1, (Prod.mk.inj h₁).2⟩

/-- Witness of C26: an assessment with a Blocker finding against one without
findings, with skip-confirmation set: both commands succeed with the same single
call of the upgrade action. -/
theorem findings_do_not_change_outcome_witness :
    (Run highRiskEnv ⟨"v6.5.0", "v7.1.0"⟩).1.map (fun r => r.High.length) = some 1 ∧
    (Run sampleEnv ⟨"v6.5.0", "v7.1.0"⟩).1.map (fun r => r.Summary.Total) = some 0 ∧
    (RunE highRiskEnv { skipConfirm := true } ["cluster1", "v7.1.0"]).1 =
      (RunE sampleEnv { skipConfirm := true } ["cluster1", "v7.1.0"]).1 ∧
    upgradeCalls (RunE highRiskEnv { skipConfirm := true } ["cluster1", "v7.1.0"]).2 =
      upgradeCalls (RunE sampleEnv { skipConfirm := true } ["cluster1", "v7.1.0"]).2 ∧
    (upgradeCalls (RunE highRiskEnv { skipConfirm := true } ["cluster1", "v7.1.0"]).2).length = 1 := by
  have hv₁ : highRiskEnv.FmtVer "v7.1.0" = .ok "v7.1.0" := rfl
  have hv₂ : sampleEnv.FmtVer "v7.1.0" = .ok "v7.1.0" := rfl
  have hf₁ : highRiskEnv.ParseOutputFormat "text" = .ok OutputFormat.OutputText := rfl
  have hf₂ : sampleEnv.ParseOutputFormat "text" = .ok OutputFormat.OutputText := rfl
  have h := findings_do_not_change_outcome highRiskEnv sampleEnv { skipConfirm := true }
    "cluster1" "v7.1.0" (by decide) rfl rfl rfl rfl
    (by
      intro version precheckFmt hv hf
      rw [hv₁] at hv
      rw [show ({ skipConfirm := true } : Flags).precheckOutputFormat = "text" from rfl, hf₁] at hf
      cases hv
      cases hf
      decide)
    (by
      intro version precheckFmt hv hf
      rw [hv₂] at hv
      rw [show ({ skipConfirm := true } : Flags).precheckOutputFormat = "text" from rfl, hf₂] at hf
      cases hv
      cases hf
      decide)
  exact ⟨by decide, by decide, h.1, h.2, by decide⟩

/-! ## The text report -/

theorem map_write_fieldLine (chan : OutChan) (label value : String) :
    (fieldLine (label, value)).map (Event.write chan) =
      if value ≠ "" then [Event.write chan ("  - " ++ label ++ ": " ++ value ++ "\n")]
      else [] := by
  unfold fieldLine
  split_ifs <;> rfl

/-- The writes of `printRiskItem` on a writable channel are the texts of the item. -/
theorem printRiskItem_eq (w : Writer) (it : RiskItem) (hw : w.fail = none) :
    printRiskItem w it = (itemTexts it).map (Event.write w.chan) := by
  simp only [itemTexts, labelledFields, List.map_cons, List.map_append, List.map_flatMap,
    List.flatMap_cons, List.flatMap_nil, map_write_fieldLine, List.map_nil, List.append_nil]
  simp only [printRiskItem, fprintf, fprintln, fprint, hw, itemHeader]
  by_cases hc : it.Category = ""
  · simp [hc]
  · simp [hc]

theorem length_flatMap_fieldLine (fields : List (String × String)) :
    (fields.flatMap fieldLine).length = (fields.filter (fun fld => fld.2 ≠ "")).length := by
  induction fields with
  | nil => rfl
  | cons fld rest ih =>
    by_cases h : fld.2 = "" <;> simp [List.flatMap_cons, List.filter_cons, fieldLine, h, ih]

/-- C22: on a writable channel `printRiskItem` writes the header line of the item,
then, for the fields Component, Parameter, Scope, Current, New Default, Impact,
Suggestion, Comments and Reason in this order, one line with the value as it is
for each non-empty field and nothing for an empty one, and then the empty line
that closes the item; the number of field lines is the number of non-empty
fields. -/
theorem item_printed_field_by_field (w : Writer) (it : RiskItem) (hw : w.fail = none) :
    printRiskItem w it =
      (itemHeader it :: (labelledFields it).flatMap fieldLine ++ ["\n"]).map
        (Event.write w.chan) ∧
    (labelledFields it).map Prod.snd =
      [it.Component, it.Parameter, it.Scope, it.Current, it.NewDefault, it.Impact,
       it.Suggestion, it.Comments, it.Reason] ∧
    (∀ label value : String,
      (value = "" → fieldLine (label, value) = []) ∧
      (value ≠ "" → fieldLine (label, value) = ["  - " ++ label ++ ": " ++ value ++ "\n"])) ∧
    ((labelledFields it).flatMap fieldLine).length =
      ((labelledFields it).filter (fun fld => fld.2 ≠ "")).length := by
  refine ⟨printRiskItem_eq w it hw, rfl, ?_, length_flatMap_fieldLine _⟩
  intro label value
  constructor <;> intro h <;> simp [fieldLine, h]

/-- Witness of C22: an item with four non-empty fields is printed as six lines, and
an item with a level in small letters, no category and one field as three. -/
theorem item_printed_field_by_field_witness :
    printRiskItem bufferWriter sampleItem =
      [Event.write bufferWriter.chan "[MEDIUM RISK] (Compatibility)\n",
       Event.write bufferWriter.chan "  - Component: TiDB\n",
       Event.write bufferWriter.chan "  - Parameter: sql_mode\n",
       Event.write bufferWriter.chan "  - Impact: Stricter SQL mode\n",
       Event.write bufferWriter.chan "  - Suggestion: Test with new default\n",
       Event.write bufferWriter.chan "\n"] ∧
    printRiskItem bufferWriter lowerCaseItem =
      [Event.write bufferWriter.chan "[LOW RISK]\n",
       Event.write bufferWriter.chan "  - Parameter: max-connections\n",
       Event.write bufferWriter.chan "\n"] :=
  ⟨(item_printed_field_by_field bufferWriter sampleItem rfl).1.trans (by decide),
   (item_printed_field_by_field bufferWriter lowerCaseItem rfl).1.trans (by decide)⟩

theorem renderSection_eq (w : Writer) (items : List RiskItem) (hw : w.fail = none) :
    renderSection w items =
      (if items ≠ [] then (separatorLine ++ "\n") :: items.flatMap itemTexts else []).map
        (Event.write w.chan) := by
  have hitems : items.flatMap (printRiskItem w) =
      (items.flatMap itemTexts).map (Event.write w.chan) := by
    rw [List.map_flatMap]
    congr 1
    funext it
    exact printRiskItem_eq w it hw
  cases items with
  | nil => simp [renderSection]
  | cons it rest =>
    simp only [renderSection, List.length_cons, gt_iff_lt, Nat.zero_lt_succ, if_true, ne_eq,
      reduceCtorEq, not_false_eq_true, List.map_cons, hitems]
    simp [fprintln, fprint, hw]

theorem reportSections_eq (r : RiskReport) :
    reportSections r =
      (if r.High ≠ [] then (separatorLine ++ "\n") :: r.High.flatMap itemTexts else []) ++
      (if r.Medium ≠ [] then (separatorLine ++ "\n") :: r.Medium.flatMap itemTexts else []) ++
      (if r.Low ≠ [] then (separatorLine ++ "\n") :: r.Low.flatMap itemTexts else []) := by
  unfold reportSections
  by_cases hh : r.High = [] <;> by_cases hm : r.Medium = [] <;> by_cases hl : r.Low = [] <;>
    simp [List.filter_cons, List.flatMap_cons, hh, hm, hl]

theorem total_eq_zero_iff (r : RiskReport) :
    r.Summary.Total = 0 ↔ r.High = [] ∧ r.Medium = [] ∧ r.Low = [] := by
  simp only [RiskReport.Summary]
  constructor
  · intro h
    refine ⟨List.eq_nil_of_length_eq_zero ?_, List.eq_nil_of_length_eq_zero ?_,
      List.eq_nil_of_length_eq_zero ?_⟩ <;> omega
  · rintro ⟨h1, h2, h3⟩
    simp [h1, h2, h3]

/-- The writes of `renderTextReport` on a writable channel: the preamble, the
sections, the line for a report without risks, and the closing separator. -/
theorem renderTextReport_eq (w : Writer) (r : RiskReport) (hw : w.fail = none) :
    renderTextReport w r =
      (reportPreamble r ++ reportSections r ++
        (if r.High = [] ∧ r.Medium = [] ∧ r.Low = [] then ["No parameter risks detected.\n"]
         else []) ++ [separatorLine ++ "\n"]).map (Event.write w.chan) := by
  have hsec := renderSection_eq w
  have htotal := total_eq_zero_iff r
  rw [reportSections_eq]
  simp only [renderTextReport, hsec _ hw, htotal]
  by_cases hall : r.High = [] ∧ r.Medium = [] ∧ r.Low = []
  · simp [hall, reportPreamble, fprintln, fprintf, fprint, hw]
  · simp only [hall, if_false]
    simp [reportPreamble, fprintln, fprintf, fprint, hw]

theorem head?_append_left (a b : String) (c : Char) (h : a.data.head? = some c) :
    (a ++ b).data.head? = some c := by
  rw [String.data_append]
  cases ha : a.data with
  | nil => rw [ha] at h; simp at h
  | cons x xs => rw [ha] at h; simpa using h

theorem itemTexts_head (it : RiskItem) :
    ∀ t ∈ itemTexts it, t.data.head? ≠ some (Char.ofNat 78) := by
  intro t ht
  simp only [itemTexts, List.mem_cons, List.mem_append, List.mem_flatMap, List.mem_singleton,
    List.not_mem_nil, or_false] at ht
  rcases ht with (h | ⟨fld, -, h⟩) | h
  · subst h
    unfold itemHeader
    split_ifs
    · rw [head?_append_left _ _ (Char.ofNat 91)
        (head?_append_left _ _ _ (head?_append_left _ _ _ (head?_append_left "[" _ _ rfl)))]
      decide
    · rw [head?_append_left _ _ (Char.ofNat 91) (head?_append_left "[" _ _ rfl)]
      decide
  · unfold fieldLine at h
    split_ifs at h
    · simp only [List.mem_singleton] at h
      subst h
      rw [head?_append_left _ _ (Char.ofNat 32)
        (head?_append_left _ _ _ (head?_append_left _ _ _ (head?_append_left "  - " _ _ rfl)))]
      decide
    · simp at h
  · subst h
    decide

theorem reportSections_head (r : RiskReport) :
    ∀ t ∈ reportSections r, t.data.head? ≠ some (Char.ofNat 78) := by
  intro t ht
  simp only [reportSections, List.mem_flatMap, List.mem_cons] at ht
  obtain ⟨items, -, h | ⟨it, -, h⟩⟩ := ht
  · subst h
    decide
  · exact itemTexts_head it t h

theorem reportPreamble_head (r : RiskReport) :
    ∀ t ∈ reportPreamble r, t.data.head? ≠ some (Char.ofNat 78) := by
  intro t ht
  simp only [reportPreamble, List.mem_cons, List.mem_singleton, List.not_mem_nil,
    or_false] at ht
  rcases ht with h | h | h | h | h | h | h <;> subst h
  · decide
  · rw [head?_append_left _ _ (Char.ofNat 32)
      (head?_append_left "  Source Version: " _ _ rfl)]
    decide
  · rw [head?_append_left _ _ (Char.ofNat 32)
      (head?_append_left "  Target Version: " _ _ rfl)]
    decide
  · decide
  · rw [head?_append_left _ _ (Char.ofNat 70) (head?_append_left "Found " _ _ rfl)]
    decide
  · rw [head?_append_left _ _ (Char.ofNat 32) (head?_append_left "  - [HIGH RISK]: " _ _ rfl)]
    decide
  · rw [head?_append_left _ _ (Char.ofNat 32)
      (head?_append_left "  - [MEDIUM RISK]: " _ _ rfl)]
    decide

/-- C23: on a writable channel `renderTextReport` writes the preamble, then one
section for each non-empty sequence among High, Medium and Low, in this order,
made of a separator line and the items of the sequence in order, then the line
"No parameter risks detected." when the three sequences are empty, and the
closing separator; that line is written if and only if the three sequences are
all empty. -/
theorem no_risks_line_iff_all_empty (w : Writer) (r : RiskReport) (hw : w.fail = none) :
    renderTextReport w r =
      (reportPreamble r ++
        ([r.High, r.Medium, r.Low].filter (fun items => items ≠ [])).flatMap
          (fun items => (separatorLine ++ "\n") :: items.flatMap itemTexts) ++
        (if r.High = [] ∧ r.Medium = [] ∧ r.Low = [] then ["No parameter risks detected.\n"]
         else []) ++ [separatorLine ++ "\n"]).map (Event.write w.chan) ∧
    (Event.write w.chan "No parameter risks detected.\n" ∈ renderTextReport w r ↔
      r.High = [] ∧ r.Medium = [] ∧ r.Low = []) := by
  have heq := renderTextReport_eq w r hw
  refine ⟨heq, ?_⟩
  rw [heq]
  constructor
  · intro hmem
    by_contra hall
    simp only [hall, if_false, List.append_nil, List.mem_map, Event.write.injEq, true_and,
      exists_eq_right, List.mem_append, List.mem_singleton] at hmem
    rcases hmem with (h | h) | h
    · exact reportPreamble_head r _ h (by decide)
    · exact reportSections_head r _ h (by decide)
    · revert h; decide
  · intro hall
    simp [hall]

/-- Witness of C23: a report without findings and a report with one Blocker
finding, both on a writable buffer. -/
theorem no_risks_line_iff_all_empty_witness :
    Event.write bufferWriter.chan "No parameter risks detected.\n" ∈
      renderTextReport bufferWriter {} ∧
    ¬ Event.write bufferWriter.chan "No parameter risks detected.\n" ∈
      renderTextReport bufferWriter (convertReport ⟨"v6.5.0", "v7.1.0"⟩ ⟨[blockerFinding]⟩) :=
  ⟨(no_risks_line_iff_all_empty bufferWriter {} rfl).2.mpr (by decide),
   fun h => absurd ((no_risks_line_iff_all_empty bufferWriter
      (convertReport ⟨"v6.5.0", "v7.1.0"⟩ ⟨[blockerFinding]⟩) rfl).2.mp h) (by decide)⟩

/-! ## The normalizer and panicking Stringers -/

theorem lookup_map_renders (entries : List (String × MetaValue)) (key : String) :
    (entries.map (fun entry => (entry.1, BagValue.renders entry.2))).lookup key =
      (entries.lookup key).map BagValue.renders := by
  induction entries with
  | nil => rfl
  | cons entry rest ih =>
    obtain ⟨k, v⟩ := entry
    simp only [List.map_cons, List.lookup_cons]
    cases key == k <;> simp [ih]

theorem stringFromMetaOrPanic_renders (entries : List (String × MetaValue)) (key : String) :
    stringFromMetaOrPanic (entries.map (fun entry => (entry.1, BagValue.renders entry.2))) key =
      some (stringFromMeta entries key) := by
  unfold stringFromMetaOrPanic stringFromMeta
  rw [lookup_map_renders]
  cases entries.lookup key with
  | none => rfl
  | some v => cases v <;> rfl

set_option maxHeartbeats 1600000 in
theorem convertReportItemOrPanic_stringMap (rule : String) (sev : Severity) (msg : String)
    (sugg det : List String) (entries : List (String × MetaValue)) :
    convertReportItemOrPanic
        (ReportItem.toRaw ⟨rule, sev, msg, sugg, det, Metadata.stringMap entries⟩) =
      some (convertReportItem ⟨rule, sev, msg, sugg, det, Metadata.stringMap entries⟩) := by
  rw [convertReportItem_eq]
  by_cases hrule : rule = "core.forced-global-sysvars" <;>
  by_cases hreason : TrimSpace (stringFromMeta entries "reason") = "" <;>
  by_cases hcomp : TrimSpace (stringFromMeta entries "component") = "" <;>
  by_cases hscope : TrimSpace (stringFromMeta entries "scope") = "" <;>
  cases sugg <;> cases det <;>
  first
    | (rename_i d ds
       by_cases hjoin : Join (d :: ds) "; " = "" <;>
       simp [convertReportItemOrPanic, ReportItem.toRaw, Metadata.toBag,
         stringFromMetaOrPanic_renders, metaString, trimString, inferComponent, Join_nil,
         hrule, hreason, hcomp, hscope, hjoin])
    | simp [convertReportItemOrPanic, ReportItem.toRaw, Metadata.toBag,
        stringFromMetaOrPanic_renders, metaString, trimString, inferComponent, Join_nil,
        hrule, hreason, hcomp, hscope]

theorem convertReportItemOrPanic_noMap (rule : String) (sev : Severity) (msg : String)
    (sugg det : List String) (md : Metadata) (hmd : md = Metadata.nil ∨ md = Metadata.other) :
    convertReportItemOrPanic (ReportItem.toRaw ⟨rule, sev, msg, sugg, det, md⟩) =
      some (convertReportItem ⟨rule, sev, msg, sugg, det, md⟩) := by
  rw [convertReportItem_eq]
  by_cases hrule : rule = "core.forced-global-sysvars" <;>
  rcases hmd with hmd | hmd <;> subst hmd <;>
  cases sugg <;> cases det <;>
    simp [convertReportItemOrPanic, ReportItem.toRaw, Metadata.toBag, metaString,
      inferComponent, Join_nil, TrimSpace_empty, hrule] <;>
    split_ifs with hjoin <;> simp [hjoin]

/-- On a finding all of whose metadata values render, the conversion with panics
returns, and returns the item given by `convertReportItem`. -/
theorem convertReportItemOrPanic_toRaw (item : ReportItem) :
    convertReportItemOrPanic item.toRaw = some (convertReportItem item) := by
  rcases item with ⟨rule, sev, msg, sugg, det, md⟩
  cases md with
  | stringMap entries => exact convertReportItemOrPanic_stringMap rule sev msg sugg det entries
  | nil => exact convertReportItemOrPanic_noMap rule sev msg sugg det _ (Or.inl rfl)
  | other => exact convertReportItemOrPanic_noMap rule sev msg sugg det _ (Or.inr rfl)

/-- A panicking Stringer under the key "target", the first key read, aborts the
conversion of every finding with map metadata. -/
theorem convertReportItemOrPanic_target_panics (item : RawFinding)
    (entries : List (String × BagValue))
    (hmeta : item.Metadata = BagMetadata.stringMap entries)
    (htarget : entries.lookup "target" = some BagValue.panickingStringer) :
    convertReportItemOrPanic item = none := by
  have hread : stringFromMetaOrPanic entries "target" = none := by
    simp [stringFromMetaOrPanic, htarget]
  unfold convertReportItemOrPanic
  simp only [hmeta, hread]
  rfl

/-- C18, at the failing input: a finding whose metadata map lacks the keys "target",
"default_value", "reason" and "summary" and binds "scope" to a typed-nil Stringer
makes the read of "scope" panic, so that the conversion aborts and yields no
item; the same finding without metadata is converted. -/
theorem typed_nil_stringer_aborts_normalization :
    typedNilStringerFinding.Metadata =
      BagMetadata.stringMap [("scope", BagValue.panickingStringer)] ∧
    [("scope", BagValue.panickingStringer)].lookup "target" = none ∧
    [("scope", BagValue.panickingStringer)].lookup "default_value" = none ∧
    [("scope", BagValue.panickingStringer)].lookup "reason" = none ∧
    [("scope", BagValue.panickingStringer)].lookup "summary" = none ∧
    stringFromMetaOrPanic [("scope", BagValue.panickingStringer)] "scope" = none ∧
    convertReportItemOrPanic typedNilStringerFinding = none ∧
    (convertReportItemOrPanic
      { typedNilStringerFinding with Metadata := BagMetadata.nil }).isSome = true := by
  decide

end Tiup
